import Mathlib

/-!
Verification of the `whale` WebAssembly interpreter against its
natural-language specification.

The Rust sources are shallowly embedded: machine integers become `Nat`/`Int`
with explicit reductions modulo `2^32`/`2^64` where the machine width matters,
byte buffers become `List Nat`, fallible functions return `Except`, and
`&mut self` state is passed explicitly.  A Rust `panic!`/`todo!` is a distinct
`panicked` outcome, kept separate from recoverable `Err` results.
-/

set_option maxRecDepth 10000
set_option maxHeartbeats 1000000

namespace Whale

/-! ## `src/leb128.rs` -/

/-- The maximum length of a leb128-encoded 32-bit integer (`MAX_LEB128_LEN_32`). -/
def MAX_LEB128_LEN_32 : Nat := 5

/-- `MAX_LEB128_LEN_64` from `src/leb128.rs`. -/
def MAX_LEB128_LEN_64 : Nat := 10

/-- Two's-complement interpretation of an `i32` bit pattern
(the cast `u32 as i32` / the result of reducing an `Int` to `i32`). -/
def fromU32 (p : Nat) : Int :=
  if (p % 2^32) < 2^31 then ((p % 2^32 : Nat) : Int) else ((p % 2^32 : Nat) : Int) - 2^32

/-- Bit pattern of an `i32` value (the cast `i32 as u32`). -/
def toU32 (z : Int) : Nat := (z % (2^32 : Int)).toNat

/-- Wrapping reduction of an integer into the `i32` value range
(Rust's wrapping semantics for `i32` shifts/arithmetic). -/
def wrap32 (z : Int) : Int := (z + 2^31) % 2^32 - 2^31

/-- Machine `i32` bitwise xor (`^` on `i32`), via bit patterns. -/
def i32_xor (a b : Int) : Int := fromU32 (toU32 a ^^^ toU32 b)

/-- Two's-complement interpretation of an `i64` bit pattern. -/
def fromU64 (p : Nat) : Int :=
  if (p % 2^64) < 2^63 then ((p % 2^64 : Nat) : Int) else ((p % 2^64 : Nat) : Int) - 2^64

/-- Machine `i64` bitwise xor (`^` on `i64`), via bit patterns. -/
def i64_xor (a b : Int) : Int :=
  fromU64 ((a % (2^64 : Int)).toNat ^^^ (b % (2^64 : Int)).toNat)

/-- `zig_zag` from `src/leb128.rs`: `((x << 1) ^ (x >> 31)) as u32`.
`x << 1` is the wrapping `i32` shift, `x >> 31` the arithmetic shift
(floor division by `2^31`). -/
def zig_zag (x : Int) : Nat :=
  toU32 (i32_xor (wrap32 (x * 2)) (Int.fdiv x (2^31)))

/-- `decode_zig_zag_u32` from `src/leb128.rs`:
`((x >> 1) as i32) ^ -((x & 1) as i32)`. -/
def decode_zig_zag_u32 (x : Nat) : Int :=
  i32_xor (fromU32 (x >>> 1)) (-(fromU32 (x &&& 1)))

/-- `decode_zig_zag_u64` from `src/leb128.rs`:
`((x >> 1) as i64) ^ -((x & 1) as i64)`. -/
def decode_zig_zag_u64 (x : Nat) : Int :=
  i64_xor (fromU64 (x >>> 1)) (-(fromU64 (x &&& 1)))

/-- `size_u32` from `src/leb128.rs`: the encoded size of an unsigned
leb128-encoded integer, `((9 * bits + 64) / 64)` with
`bits = x.max(1).ilog2() + 1` (`Nat.log2` is `ilog2` on positive input). -/
def size_u32 (x : Nat) : Nat :=
  (9 * ((max x 1).log2 + 1) + 64) / 64

/-- The loop of `write_u32`: emits one 7-bit group per iteration, setting the
continuation bit when more groups follow; `slots` is the number of loop
iterations still available (`buf.iter_mut().enumerate().take(MAX_LEB128_LEN_32)`).
Falling off the loop yields the "maximum representable length" error. -/
def write_u32_go : Nat → Nat → Except String (List Nat)
  | _, 0 => .error "The number being encoded exceeds the maximum representable length."
  | x, slots+1 =>
      let byte := x &&& 0x7F
      let x' := x >>> 7
      let more : Nat := if x' ≠ 0 then 1 else 0
      if more = 0 then .ok [byte ||| (more <<< 7)]
      else
        match write_u32_go x' slots with
        | .ok rest => .ok ((byte ||| (more <<< 7)) :: rest)
        | .error e => .error e

/-- `write_u32` from `src/leb128.rs`.  Returns the number of bytes written and
the updated buffer (the Rust function mutates `buf` in place and returns the
count). -/
def write_u32 (buf : List Nat) (x : Nat) : Except String (Nat × List Nat) :=
  if size_u32 x ≤ buf.length then
    match write_u32_go x (min buf.length MAX_LEB128_LEN_32) with
    | .ok bytes => .ok (bytes.length, bytes ++ buf.drop bytes.length)
    | .error e => .error e
  else .error "The number being read is too large for the provided buffer."

/-- The loop of `read_u32` over the remaining buffer, carrying the loop index
`i`, the accumulator `x` and the shift `s`.  `(b as u32) << s` wraps modulo
`2^32`, exactly as the Rust `u32` shift does. -/
def read_u32_loop : List Nat → Nat → Nat → Nat → Except String (Nat × Nat)
  | [], _, _, _ =>
      .error "The number being decoded exceeds the maximum length of a leb128-encoded 32-bit integer."
  | b :: rest, i, x, s =>
      if i < MAX_LEB128_LEN_32 then
        if b < 0x80 then
          -- note: `i != MAX_LEB128_LEN_32` is the check as written in the source
          if i ≠ MAX_LEB128_LEN_32 ∨ b ≤ 1 then
            .ok (x ||| ((b <<< s) % 2^32), i + 1)
          else .error "Invalid final byte for 32-bit leb128 decoding."
        else read_u32_loop rest (i + 1) (x ||| (((b &&& 0x7F) <<< s) % 2^32)) (s + 7)
      else
        .error "The number being decoded exceeds the maximum length of a leb128-encoded 32-bit integer."

/-- `read_u32` from `src/leb128.rs`. -/
def read_u32 (buf : List Nat) : Except String (Nat × Nat) :=
  read_u32_loop buf 0 0 0

/-- `write_i32` from `src/leb128.rs`: `write_u32(buf, zig_zag(x))`. -/
def write_i32 (buf : List Nat) (x : Int) : Except String (Nat × List Nat) :=
  write_u32 buf (zig_zag x)

/-- `read_i32` from `src/leb128.rs`: unsigned decode followed by
`decode_zig_zag_u32`. -/
def read_i32 (buf : List Nat) : Except String (Int × Nat) :=
  match read_u32 buf with
  | .ok (ux, n) => .ok (decode_zig_zag_u32 ux, n)
  | .error e => .error e

/-- The loop of `read_u64`, the 64-bit analogue of `read_u32_loop`. -/
def read_u64_loop : List Nat → Nat → Nat → Nat → Except String (Nat × Nat)
  | [], _, _, _ =>
      .error "The number being decoded exceeds the maximum length of a leb128-encoded 64-bit integer."
  | b :: rest, i, x, s =>
      if i < MAX_LEB128_LEN_64 then
        if b < 0x80 then
          if i ≠ MAX_LEB128_LEN_64 ∨ b ≤ 1 then
            .ok (x ||| ((b <<< s) % 2^64), i + 1)
          else .error "Invalid final byte for 64-bit leb128 decoding."
        else read_u64_loop rest (i + 1) (x ||| (((b &&& 0x7F) <<< s) % 2^64)) (s + 7)
      else
        .error "The number being decoded exceeds the maximum length of a leb128-encoded 64-bit integer."

/-- `read_u64` from `src/leb128.rs`. -/
def read_u64 (buf : List Nat) : Except String (Nat × Nat) :=
  read_u64_loop buf 0 0 0

/-- `read_i64` from `src/leb128.rs`: unsigned decode followed by
`decode_zig_zag_u64`. -/
def read_i64 (buf : List Nat) : Except String (Int × Nat) :=
  match read_u64 buf with
  | .ok (ux, n) => .ok (decode_zig_zag_u64 ux, n)
  | .error e => .error e


theorem lor_bit (b₁ b₂ : Bool) (m n : Nat) :
    (Nat.bit b₁ m) ||| (Nat.bit b₂ n) = Nat.bit (b₁ || b₂) (m ||| n) :=
  Nat.bitwise_bit rfl b₁ m b₂ n

theorem xor_bit (b₁ b₂ : Bool) (m n : Nat) :
    (Nat.bit b₁ m) ^^^ (Nat.bit b₂ n) = Nat.bit (bne b₁ b₂) (m ^^^ n) :=
  Nat.bitwise_bit rfl b₁ m b₂ n

theorem lor_mul_two_pow (s : Nat) : ∀ a b : Nat, a < 2^s → a ||| (b * 2^s) = a + b * 2^s := by
  induction s with
  | zero =>
      intro a b h
      have ha : a = 0 := by omega
      subst ha; simp [Nat.zero_or]
  | succ s ih =>
      intro a b h
      have he : (2:Nat)^(s+1) = 2 * 2^s := by rw [pow_succ]; ring
      have hd : a.div2 < 2^s := by
        rw [Nat.div2_val]; omega
      have hb : b * 2^(s+1) = Nat.bit false (b * 2^s) := by
        rw [Nat.bit_val, Bool.toNat_false, pow_succ]; ring
      conv_lhs => rw [← Nat.bit_decomp a, hb]
      rw [lor_bit, ih a.div2 b hd, Nat.bit_val, Bool.or_false]
      have hsum := Nat.bodd_add_div2 a
      have h2 : b * 2^(s+1) = 2 * (b * 2^s) := by rw [pow_succ]; ring
      rw [h2]
      omega

theorem xor_two_pow_sub_one (n : Nat) : ∀ p, p < 2^n → p ^^^ (2^n - 1) = 2^n - 1 - p := by
  induction n with
  | zero =>
      intro p h
      have : p = 0 := by omega
      subst this; simp
  | succ n ih =>
      intro p h
      have he : (2:Nat)^(n+1) = 2 * 2^n := by rw [pow_succ]; ring
      have h1 : (1:Nat) ≤ 2^n := Nat.one_le_two_pow
      have hones : (2:Nat)^(n+1) - 1 = Nat.bit true (2^n - 1) := by
        rw [Nat.bit_val, Bool.toNat_true]; omega
      have hd : p.div2 < 2^n := by rw [Nat.div2_val]; omega
      conv_lhs => rw [← Nat.bit_decomp p, hones]
      rw [xor_bit, ih p.div2 hd, Nat.bit_val]
      have hsum := Nat.bodd_add_div2 p
      cases hb : p.bodd <;> simp [hb] at hsum ⊢ <;> omega

def leb_groups (x : Nat) : Nat :=
  if x < 128 then 1 else leb_groups (x / 128) + 1
termination_by x
decreasing_by exact Nat.div_lt_self (by omega) (by omega)

theorem leb_groups_pos (x : Nat) : 1 ≤ leb_groups x := by
  rw [leb_groups]; split <;> omega

theorem leb_groups_le : ∀ k x : Nat, 0 < k → x < 2^(7*k) → leb_groups x ≤ k := by
  intro k
  induction k with
  | zero => intro x h; omega
  | succ k ih =>
      intro x _ hx
      rw [leb_groups]
      split
      · omega
      · rename_i hge
        have hk : 0 < k := by
          by_contra hk0
          have hk1 : k = 0 := by omega
          subst hk1
          norm_num at hx
          omega
        have hdiv : x / 128 < 2^(7*k) := by
          have hp : (2:Nat)^(7*(k+1)) = 2^(7*k) * 128 := by
            rw [show 7*(k+1) = 7*k + 7 by ring, pow_add]; norm_num
          rw [Nat.div_lt_iff_lt_mul (by omega)]
          omega
        have := ih (x / 128) hk hdiv
        omega

theorem leb_rt_loop : ∀ slots x i acc s : Nat,
    leb_groups x ≤ slots → i + slots ≤ 5 → s = 7 * i → acc < 2^s → x * 2^s < 2^32 →
    ∃ bytes, write_u32_go x slots = .ok bytes ∧ bytes.length = leb_groups x ∧
      read_u32_loop bytes i acc s = .ok (acc + x * 2^s, i + leb_groups x) := by
  intro slots
  induction slots with
  | zero =>
      intro x i acc s hg _ _ _ _
      exact absurd hg (by have := leb_groups_pos x; omega)
  | succ slots ih =>
      intro x i acc s hg hi hs hacc hx
      by_cases h128 : x < 128
      · have hx7 : x >>> 7 = 0 := by
          rw [Nat.shiftRight_eq_div_pow]; norm_num; omega
        have hgx : leb_groups x = 1 := by rw [leb_groups]; simp [h128]
        have hband : x &&& 0x7F = x := by
          have h7 : (0x7F : Nat) = 2^7 - 1 := rfl
          rw [h7, Nat.and_pow_two_sub_one_eq_mod]
          exact Nat.mod_eq_of_lt h128
        have hwrite : write_u32_go x (slots+1) = .ok [x] := by
          simp [write_u32_go, hx7, hband]
        refine ⟨[x], hwrite, by simp [hgx], ?_⟩
        rw [read_u32_loop]
        have hi5 : i < MAX_LEB128_LEN_32 := by simp only [MAX_LEB128_LEN_32]; omega
        rw [if_pos hi5, if_pos (by omega : x < 0x80),
            if_pos (Or.inl (by simp only [MAX_LEB128_LEN_32]; omega))]
        rw [Nat.shiftLeft_eq, Nat.mod_eq_of_lt hx, lor_mul_two_pow s acc x hacc, hgx]
      · have hx' : x >>> 7 = x / 128 := by rw [Nat.shiftRight_eq_div_pow]
        have hne : x / 128 ≠ 0 := by omega
        have hg2 : leb_groups x = leb_groups (x / 128) + 1 := by
          rw [leb_groups]; simp [h128]
        have hbyte : x &&& 0x7F = x % 128 := by
          have h7 : (0x7F : Nat) = 2^7 - 1 := rfl
          rw [h7, Nat.and_pow_two_sub_one_eq_mod]
        have hslots1 : 1 ≤ slots := by
          have := leb_groups_pos (x / 128); omega
        have hpow : (2:Nat)^(s+7) = 2^s * 128 := by rw [pow_add]; norm_num
        have hmodsh : (x % 128) * 2^s < 2^32 :=
          lt_of_le_of_lt (Nat.mul_le_mul_right _ (Nat.mod_le x 128)) hx
        have hdivsh : (x / 128) * 2^(s+7) ≤ x * 2^s := by
          rw [hpow]
          calc x / 128 * (2^s * 128) = (x / 128 * 128) * 2^s := by ring
          _ ≤ x * 2^s := Nat.mul_le_mul_right _ (Nat.div_mul_le_self x 128)
        have hacc' : acc + (x % 128) * 2^s < 2^(s+7) := by
          have h1 : (x % 128) ≤ 127 := by omega
          have h2 : (x % 128) * 2^s ≤ 127 * 2^s := Nat.mul_le_mul_right _ h1
          rw [hpow]; omega
        obtain ⟨bytes', hw', hlen', hr'⟩ :=
          ih (x / 128) (i+1) (acc + (x % 128) * 2^s) (s+7)
            (by omega) (by omega) (by omega) hacc' (by omega)
        have hentry : (x &&& 0x7F) ||| (1 <<< 7) = x % 128 + 128 := by
          rw [hbyte]
          have hsh : (1:Nat) <<< 7 = 1 * 2^7 := by decide
          rw [hsh, lor_mul_two_pow 7 (x % 128) 1 (by omega)]
          norm_num
        have hwrite : write_u32_go x (slots+1) = .ok ((x % 128 + 128) :: bytes') := by
          simp only [write_u32_go, hx']
          rw [if_pos hne]
          rw [if_neg (by omega : ¬ (1:Nat) = 0)]
          rw [hw', hentry]
        refine ⟨(x % 128 + 128) :: bytes', hwrite, by simp [hlen', hg2], ?_⟩
        rw [read_u32_loop]
        have hi5 : i < MAX_LEB128_LEN_32 := by simp only [MAX_LEB128_LEN_32]; omega
        rw [if_pos hi5, if_neg (by omega : ¬ (x % 128 + 128) < 0x80)]
        have hand2 : (x % 128 + 128) &&& 0x7F = x % 128 := by
          have h7 : (0x7F : Nat) = 2^7 - 1 := rfl
          rw [h7, Nat.and_pow_two_sub_one_eq_mod]
          omega
        have hshmod : (((x % 128 + 128) &&& 0x7F) <<< s) % 2^32 = (x % 128) * 2^s := by
          rw [hand2, Nat.shiftLeft_eq, Nat.mod_eq_of_lt hmodsh]
        rw [hshmod, lor_mul_two_pow s acc (x % 128) hacc, hr']
        have hx128 : x % 128 + 128 * (x / 128) = x := Nat.mod_add_div x 128
        have hval : acc + (x % 128) * 2^s + (x / 128) * 2^(s+7) = acc + x * 2^s := by
          calc acc + (x % 128) * 2^s + (x / 128) * 2^(s+7)
              = acc + ((x % 128) + 128 * (x / 128)) * 2^s := by rw [hpow]; ring
          _ = acc + x * 2^s := by rw [hx128]
        rw [hval]
        have : i + 1 + leb_groups (x / 128) = i + leb_groups x := by omega
        rw [this]


theorem size_u32_le_five (x : Nat) (h : x < 2^32) : size_u32 x ≤ 5 := by
  have h1 : max x 1 < 2^32 := max_lt h (by norm_num)
  have h0 : max x 1 ≠ 0 := by
    have := le_max_right x 1; omega
  have hl : (max x 1).log2 < 32 := (Nat.log2_lt h0).mpr h1
  unfold size_u32
  omega

theorem roundtrip_u32 (x : Nat) (hx : x < 2^32) (buf : List Nat)
    (hbuf : MAX_LEB128_LEN_32 ≤ buf.length) :
    ∃ n buf', write_u32 buf x = .ok (n, buf') ∧ read_u32 (buf'.take n) = .ok (x, n) := by
  have hx35 : x < 2^(7*5) := lt_of_lt_of_le hx (by norm_num)
  have hg : leb_groups x ≤ 5 := leb_groups_le 5 x (by norm_num) hx35
  obtain ⟨bytes, hw, hlen, hr⟩ :=
    leb_rt_loop 5 x 0 0 0 hg (by omega) (by norm_num) (by norm_num) (by simpa using hx)
  have hmax : MAX_LEB128_LEN_32 = 5 := rfl
  have hsz : size_u32 x ≤ buf.length := le_trans (size_u32_le_five x hx) (by omega)
  have hmin : min buf.length MAX_LEB128_LEN_32 = 5 := by
    rw [hmax] at hbuf ⊢; omega
  refine ⟨bytes.length, bytes ++ buf.drop bytes.length, ?_, ?_⟩
  · rw [write_u32, if_pos hsz, hmin, hw]
  · rw [List.take_left, read_u32, hr]
    simp only [Nat.pow_zero, Nat.mul_one, Nat.zero_add, hlen]

theorem fromU32_toU32 (x : Int) (h1 : -2^31 ≤ x) (h2 : x < 2^31) : fromU32 (toU32 x) = x := by
  unfold fromU32 toU32
  split <;> omega

theorem toU32_fromU32 (p : Nat) (h : p < 2^32) : toU32 (fromU32 p) = p := by
  unfold fromU32 toU32
  split <;> omega

theorem toU32_lt (z : Int) : toU32 z < 2^32 := by
  unfold toU32; omega

theorem toU32_wrap32 (z : Int) : toU32 (wrap32 z) = (z % (2^32 : Int)).toNat := by
  unfold toU32 wrap32
  omega

theorem decode_zig (x : Int) (h1 : -2^31 ≤ x) (h2 : x < 2^31) :
    decode_zig_zag_u32 (zig_zag x) = x := by
  by_cases hx0 : 0 ≤ x
  · -- nonnegative: zig_zag x = 2x
    have hf : Int.fdiv x (2^31) = 0 := by
      rw [Int.fdiv_eq_ediv _ (by norm_num)]; omega
    have ht0 : toU32 0 = 0 := by decide
    have hzig : zig_zag x = (2 * x).toNat := by
      unfold zig_zag i32_xor
      rw [hf, ht0, Nat.xor_zero, toU32_fromU32 _ (toU32_lt _), toU32_wrap32]
      omega
    rw [hzig]
    unfold decode_zig_zag_u32
    have hsh : (2 * x).toNat >>> 1 = x.toNat := by
      rw [Nat.shiftRight_eq_div_pow]; omega
    have hand : (2 * x).toNat &&& 1 = 0 := by
      have h7 : (1 : Nat) = 2^1 - 1 := rfl
      rw [h7, Nat.and_pow_two_sub_one_eq_mod]; omega
    rw [hsh, hand]
    have hfx : fromU32 x.toNat = x := by unfold fromU32; omega
    have hf0 : fromU32 0 = 0 := by decide
    rw [hfx, hf0, neg_zero]
    unfold i32_xor
    rw [ht0, Nat.xor_zero, fromU32_toU32 x h1 h2]
  · -- negative: zig_zag x = -2x - 1
    push_neg at hx0
    have hf : Int.fdiv x (2^31) = -1 := by
      rw [Int.fdiv_eq_ediv _ (by norm_num)]
      omega
    have htm1 : toU32 (-1) = 2^32 - 1 := by decide
    have hq : toU32 (wrap32 (x * 2)) = (2^32 + 2*x).toNat := by
      rw [toU32_wrap32]; omega
    have hqlt : (2^32 + 2*x).toNat < 2^32 := by omega
    have hzig : zig_zag x = (-2*x - 1).toNat := by
      unfold zig_zag i32_xor
      rw [hf, htm1, hq, xor_two_pow_sub_one 32 _ hqlt, toU32_fromU32 _ (by omega)]
      omega
    rw [hzig]
    unfold decode_zig_zag_u32
    have hsh : (-2*x - 1).toNat >>> 1 = (-x - 1).toNat := by
      rw [Nat.shiftRight_eq_div_pow]; omega
    have hand : (-2*x - 1).toNat &&& 1 = 1 := by
      have h7 : (1 : Nat) = 2^1 - 1 := rfl
      rw [h7, Nat.and_pow_two_sub_one_eq_mod]; omega
    rw [hsh, hand]
    have hA : fromU32 (-x - 1).toNat = -x - 1 := by unfold fromU32; omega
    have hB : fromU32 1 = 1 := by decide
    rw [hA, hB]
    unfold i32_xor
    have htA : toU32 (-x - 1) = (-x - 1).toNat := by unfold toU32; omega
    have htB : toU32 (-1) = 2^32 - 1 := by decide
    rw [htA, htB, xor_two_pow_sub_one 32 _ (by omega)]
    unfold fromU32
    omega


theorem roundtrip_i32 (x : Int) (h1 : -2^31 ≤ x) (h2 : x < 2^31) (buf : List Nat)
    (hbuf : MAX_LEB128_LEN_32 ≤ buf.length) :
    ∃ n buf', write_i32 buf x = .ok (n, buf') ∧ read_i32 (buf'.take n) = .ok (x, n) := by
  obtain ⟨n, buf', hw, hr⟩ := roundtrip_u32 (zig_zag x) (toU32_lt _) buf hbuf
  refine ⟨n, buf', hw, ?_⟩
  rw [read_i32, hr]
  show Except.ok (decode_zig_zag_u32 (zig_zag x), n) = _
  rw [decode_zig x h1 h2]

/-- Claim C1: for every `u32` value, `write_u32` into a sufficiently large
buffer followed by `read_u32` on the written bytes returns the value together
with exactly `write_u32`'s byte count, and likewise for `write_i32`/`read_i32`
on every `i32` value. -/
theorem claim_C1_leb128_roundtrip :
    (∀ x : Nat, x < 2^32 → ∀ buf : List Nat, MAX_LEB128_LEN_32 ≤ buf.length →
      ∃ n buf', write_u32 buf x = .ok (n, buf') ∧ read_u32 (buf'.take n) = .ok (x, n)) ∧
    (∀ x : Int, -2^31 ≤ x → x < 2^31 → ∀ buf : List Nat, MAX_LEB128_LEN_32 ≤ buf.length →
      ∃ n buf', write_i32 buf x = .ok (n, buf') ∧ read_i32 (buf'.take n) = .ok (x, n)) :=
  ⟨roundtrip_u32, roundtrip_i32⟩

/-- Witness for C1 at the concrete values `300 : u32` and `-123 : i32`. -/
theorem claim_C1_leb128_roundtrip_witness :
    (∃ n buf', write_u32 [0, 0, 0, 0, 0] 300 = .ok (n, buf') ∧
      read_u32 (buf'.take n) = .ok (300, n)) ∧
    (∃ n buf', write_i32 [0, 0, 0, 0, 0] (-123) = .ok (n, buf') ∧
      read_i32 (buf'.take n) = .ok (-123, n)) :=
  ⟨claim_C1_leb128_roundtrip.1 300 (by norm_num) [0, 0, 0, 0, 0] (by decide),
   claim_C1_leb128_roundtrip.2 (-123) (by norm_num) (by norm_num) [0, 0, 0, 0, 0] (by decide)⟩

/-- Claim C2 (failing-input evaluation): the code decodes signed LEB128 by
zig-zag decoding the unsigned value, not by sign-extension.  On the one-byte
buffer `[0x7F]` sign-extension gives `-1`, but `read_i32` (and `read_i64`)
returns `-64 = decode_zig_zag(0x7F)`. -/
theorem claim_C2_read_i32_7F_is_minus_64 :
    read_i32 [0x7F] = .ok (-64, 1) ∧ read_i64 [0x7F] = .ok (-64, 1) :=
  ⟨rfl, rfl⟩

/-- Claim C3 (evaluations): the three concrete behaviours claimed by the spec
do hold, but the claimed final-byte width check does not exist: the buffer
`[0x80, 0x80, 0x80, 0x80, 0x10]`, whose 5th byte `0x10 > 0x0F` encodes the
out-of-width value `2^32`, is accepted and silently wraps to `(0, 5)`
because the check `i != MAX_LEB128_LEN_32` in the source can never fire
(`i < MAX_LEB128_LEN_32` is enforced first). -/
theorem claim_C3_read_u32_overflow :
    read_u32 [0xFF, 0xFF, 0xFF, 0xFF, 0xFF] =
      .error "The number being decoded exceeds the maximum length of a leb128-encoded 32-bit integer." ∧
    read_u32 [0x80, 0x80, 0x80, 0x80, 0x80, 0x80] =
      .error "The number being decoded exceeds the maximum length of a leb128-encoded 32-bit integer." ∧
    read_u32 [0x80, 0x80, 0x80, 0x00] = .ok (0, 4) ∧
    read_u32 [0x80, 0x80, 0x80, 0x80, 0x10] = .ok (0, 5) ∧
    read_u32 [0xFF, 0xFF, 0xFF, 0xFF, 0x7F] = .ok (0xFFFFFFFF, 5) :=
  ⟨rfl, rfl, rfl, rfl, rfl⟩


/-! ## `src/binary_grammar.rs`

Names (`&str`) are modelled as their raw byte lists (`Name`), since the code
only ever compares them bytewise and validates them as UTF-8 on parse. -/

/-- `MAX_STRING_SIZE` from `src/binary_grammar.rs`. -/
def MAX_STRING_SIZE : Nat := 100000

/-- `MAGIC_NUMBER`: the bytes of `"\0asm"`. -/
def MAGIC_NUMBER : List Nat := [0x00, 0x61, 0x73, 0x6D]

def CUSTOM_ID : Nat := 0
def TYPE_ID : Nat := 1
def IMPORT_ID : Nat := 2
def FUNCTION_ID : Nat := 3
def TABLE_ID : Nat := 4
def MEMORY_ID : Nat := 5
def GLOBAL_ID : Nat := 6
def EXPORT_ID : Nat := 7
def START_ID : Nat := 8
def ELEMENT_ID : Nat := 9
def CODE_ID : Nat := 10
def DATA_ID : Nat := 11
def DATA_COUNT_ID : Nat := 12

/-- A Rust `&str`, as its UTF-8 bytes. -/
abbrev Name := List Nat

inductive RefType where
  | FuncRef
  | ExternRef
  deriving DecidableEq, Repr

inductive ValueType where
  | I32
  | I64
  | F32
  | F64
  | V128
  | Ref (a : RefType)
  deriving DecidableEq, Repr

/-- `ResultType(pub Vec<ValueType>)`; the single tuple field is `types`. -/
structure ResultType where
  types : List ValueType
  deriving DecidableEq, Repr

/-- `FunctionType(pub ResultType, pub ResultType)`; tuple field `0` is
`params`, field `1` is `results`. -/
structure FunctionType where
  params : ResultType
  results : ResultType
  deriving DecidableEq, Repr

structure Limit where
  min : Nat
  max : Nat
  deriving DecidableEq, Repr

/-- `MemoryType(pub Limit)`; the single tuple field is `limit`. -/
structure MemoryType where
  limit : Limit
  deriving DecidableEq, Repr

structure TableType where
  element_reference_type : RefType
  limit : Limit
  deriving DecidableEq, Repr

inductive Mutability where
  | Const
  | Var
  deriving DecidableEq, Repr

structure GlobalType where
  value_type : ValueType
  mutability : Mutability
  deriving DecidableEq, Repr

inductive BlockType where
  | Empty
  | SingleValue (a : ValueType)
  | TypeIndex (a : Int)
  deriving DecidableEq, Repr

structure MemArg where
  align : Nat
  offset : Nat
  deriving DecidableEq, Repr

def TERM_END_BYTE : Nat := 0x0B
def TERM_ELSE_BYTE : Nat := 0x05

inductive Instruction where
  | Unreachable
  | Nop
  | Block (a : BlockType) (b : List Instruction)
  | Loop (a : BlockType) (b : List Instruction)
  | IfElse (a : BlockType) (b : List Instruction) (c : List Instruction)
  | Br (a : Nat)
  | BrIf (a : Nat)
  | BrTable (a : List Nat) (b : Nat)
  | Return
  | Call (a : Nat)
  | CallIndirect (a : Nat) (b : Nat)
  | RefNull (a : RefType)
  | RefIsNull
  | RefFunc (a : Nat)
  | Drop
  | Select (a : List ValueType)
  | LocalGet (a : Nat)
  | LocalSet (a : Nat)
  | LocalTee (a : Nat)
  | GlobalGet (a : Nat)
  | GlobalSet (a : Nat)
  | TableGet (a : Nat)
  | TableSet (a : Nat)
  | TableInit (a : Nat) (b : Nat)
  | ElemDrop (a : Nat)
  | TableCopy (a : Nat) (b : Nat)
  | TableGrow (a : Nat)
  | TableSize (a : Nat)
  | TableFill (a : Nat)
  | I32Load (a : MemArg)
  | I64Load (a : MemArg)
  | F32Load (a : MemArg)
  | F64Load (a : MemArg)
  | I32Load8Signed (a : MemArg)
  | I32Load8Unsigned (a : MemArg)
  | I32Load16Signed (a : MemArg)
  | I32Load16Unsigned (a : MemArg)
  | I64Load8Signed (a : MemArg)
  | I64Load8Unsigned (a : MemArg)
  | I64Load16Signed (a : MemArg)
  | I64Load16Unsigned (a : MemArg)
  | I64Load32Signed (a : MemArg)
  | I64Load32Unsigned (a : MemArg)
  | I32Store (a : MemArg)
  | I64Store (a : MemArg)
  | F32Store (a : MemArg)
  | F64Store (a : MemArg)
  | I32Store8 (a : MemArg)
  | I32Store16 (a : MemArg)
  | I64Store8 (a : MemArg)
  | I64Store16 (a : MemArg)
  | I64Store32 (a : MemArg)
  | MemorySize
  | MemoryGrow
  | MemoryInit (a : Nat)
  | DataDrop (a : Nat)
  | MemoryCopy
  | MemoryFill
  | I32Const (a : Int)
  | I64Const (a : Int)
  | F32Const (a : Nat)
  | F64Const (a : Nat)
  | I32EqZero
  | I32Eq
  | I32Ne
  | I32LtSigned
  | I32LtUnsigned
  | I32GtSigned
  | I32GtUnsigned
  | I32LeSigned
  | I32LeUnsigned
  | I32GeSigned
  | I32GeUnsigned
  | I64EqZero
  | I64Eq
  | I64Ne
  | I64LtSigned
  | I64LtUnsigned
  | I64GtSigned
  | I64GtUnsigned
  | I64LeSigned
  | I64LeUnsigned
  | I64GeSigned
  | I64GeUnsigned
  | F32Eq
  | F32Ne
  | F32Lt
  | F32Gt
  | F32Le
  | F32Ge
  | F64Eq
  | F64Ne
  | F64Lt
  | F64Gt
  | F64Le
  | F64Ge
  | I32CountLeadingZeros
  | I32CountTrailingZeros
  | I32PopCount
  | I32Add
  | I32Sub
  | I32Mul
  | I32DivSigned
  | I32DivUnsigned
  | I32RemainderSigned
  | I32RemainderUnsigned
  | I32And
  | I32Or
  | I32Xor
  | I32Shl
  | I32ShrSigned
  | I32ShrUnsigned
  | I32RotateLeft
  | I32RotateRight
  | I64CountLeadingZeros
  | I64CountTrailingZeros
  | I64PopCount
  | I64Add
  | I64Sub
  | I64Mul
  | I64DivSigned
  | I64DivUnsigned
  | I64RemainderSigned
  | I64RemainderUnsigned
  | I64And
  | I64Or
  | I64Xor
  | I64Shl
  | I64ShrSigned
  | I64ShrUnsigned
  | I64RotateLeft
  | I64RotateRight
  | F32Abs
  | F32Neg
  | F32Ceil
  | F32Floor
  | F32Trunc
  | F32Nearest
  | F32Sqrt
  | F32Add
  | F32Sub
  | F32Mul
  | F32Div
  | F32Min
  | F32Max
  | F32CopySign
  | F64Abs
  | F64Neg
  | F64Ceil
  | F64Floor
  | F64Trunc
  | F64Nearest
  | F64Sqrt
  | F64Add
  | F64Sub
  | F64Mul
  | F64Div
  | F64Min
  | F64Max
  | F64CopySign
  | I32WrapI64
  | I32TruncF32Signed
  | I32TruncF32Unsigned
  | I32TruncF64Signed
  | I32TruncF64Unsigned
  | I64ExtendI32Signed
  | I64ExtendI32Unsigned
  | I64TruncF32Signed
  | I64TruncF32Unsigned
  | I64TruncF64Signed
  | I64TruncF64Unsigned
  | F32ConvertI32Signed
  | F32ConvertI32Unsigned
  | F32ConvertI64Signed
  | F32ConvertI64Unsigned
  | F32DemoteF64
  | F64ConvertI32Signed
  | F64ConvertI32Unsigned
  | F64ConvertI64Signed
  | F64ConvertI64Unsigned
  | F64PromoteF32
  | I32ReinterpretF32
  | I64ReinterpretF64
  | F32ReinterpretI32
  | F64ReinterpretI64
  | I32Extend8Signed
  | I32Extend16Signed
  | I64Extend8Signed
  | I64Extend16Signed
  | I64Extend32Signed
  | I32TruncSaturatedF32Signed
  | I32TruncSaturatedF32Unsigned
  | I32TruncSaturatedF64Signed
  | I32TruncSaturatedF64Unsigned
  | I64TruncSaturatedF32Signed
  | I64TruncSaturatedF32Unsigned
  | I64TruncSaturatedF64Signed
  | I64TruncSaturatedF64Unsigned
  | V128Load (a : MemArg)
  | V128Load8x8Signed (a : MemArg)
  | V128Load8x8Unsigned (a : MemArg)
  | V128Load16x4Unsigned (a : MemArg)
  | V128Load16x4Signed (a : MemArg)
  | V128Load32x2Signed (a : MemArg)
  | V128Load32x2Unsigned (a : MemArg)
  | V128Load8Splat (a : MemArg)
  | V128Load16Splat (a : MemArg)
  | V128Load32Splat (a : MemArg)
  | V128Load64Splat (a : MemArg)
  | V128Load32Zero (a : MemArg)
  | V128Load64Zero (a : MemArg)
  | V128Store (a : MemArg)
  | V128Load8Lane (a : MemArg) (b : Nat)
  | V128Load16Lane (a : MemArg) (b : Nat)
  | V128Load32Lane (a : MemArg) (b : Nat)
  | V128Load64Lane (a : MemArg) (b : Nat)
  | V128Store8Lane (a : MemArg) (b : Nat)
  | V128Store16Lane (a : MemArg) (b : Nat)
  | V128Store32Lane (a : MemArg) (b : Nat)
  | V128Store64Lane (a : MemArg) (b : Nat)
  | V128Const (a : Int)
  | I8x16Shuffle (a : List Nat)
  | I8x16ExtractLaneSigned (a : Nat)
  | I8x16ExtractLaneUnsigned (a : Nat)
  | I8x16ReplaceLane (a : Nat)
  | I16x8ExtractLaneSigned (a : Nat)
  | I16x8ExtractLaneUnsigned (a : Nat)
  | I16x8ReplaceLane (a : Nat)
  | I32x4ExtractLane (a : Nat)
  | I32x4ReplaceLane (a : Nat)
  | I64x2ExtractLane (a : Nat)
  | I64x2ReplaceLane (a : Nat)
  | F32x4ExtractLane (a : Nat)
  | F32x4ReplaceLane (a : Nat)
  | F64x2ExtractLane (a : Nat)
  | F64x2ReplaceLane (a : Nat)
  | I8x16Swizzle
  | I8x16Splat
  | I16x8Splat
  | I32x4Splat
  | I64x2Splat
  | F32x4Splat
  | F64x2Splat
  | I8x16Eq
  | I8x16Ne
  | I8x16LtSigned
  | I8x16LtUnsigned
  | I8x16GtSigned
  | I8x16GtUnsigned
  | I8x16LeSigned
  | I8x16LeUnsigned
  | I8x16GeSigned
  | I8x16GeUnsigned
  | I16x8Eq
  | I16x8Ne
  | I16x8LtSigned
  | I16x8LtUnsigned
  | I16x8GtSigned
  | I16x8GtUnsigned
  | I16x8LeSigned
  | I16x8LeUnsigned
  | I16x8GeSigned
  | I16x8GeUnsigned
  | I32x4Eq
  | I32x4Ne
  | I32x4LtSigned
  | I32x4LtUnsigned
  | I32x4GtSigned
  | I32x4GtUnsigned
  | I32x4LeSigned
  | I32x4LeUnsigned
  | I32x4GeSigned
  | I32x4GeUnsigned
  | I64x2Eq
  | I64x2Ne
  | I64x2LtSigned
  | I64x2GtSigned
  | I64x2LeSigned
  | I64x2GeSigned
  | F32X4Eq
  | F32x4Ne
  | F32x4Lt
  | F32x4Gt
  | F32x4Le
  | F32x4Ge
  | F64x2Eq
  | F64x2Ne
  | F64x2Lt
  | F64x2Gt
  | F64x2Le
  | F64x2Ge
  | V128Not
  | V128And
  | V128AndNot
  | V128Or
  | V128Xor
  | V128BitSelect
  | V128AnyTrue
  | I8x16Abs
  | I8x16Neg
  | I8x16PopCount
  | I8x16AllTrue
  | I8x16BitMask
  | I8x16NarrowI16x8Signed
  | I8x16NarrowI16x8Unsigned
  | I8x16Shl
  | I8x16ShrSigned
  | I8x16ShrUnsigned
  | I8x16Add
  | I8x16AddSaturatedSigned
  | I8x16AddSaturatedUnsigned
  | I8x16Sub
  | I8x16SubSaturatedSigned
  | I8x16SubSaturatedUnsigned
  | I8x16MinSigned
  | I8x16MinUnsigned
  | I8x16MaxSigned
  | I8x16MaxUnsigned
  | I8x16AvgRangeUnsigned
  | I16x8ExtAddPairWiseI8x16Signed
  | I16x8ExtAddPairWiseI8x16Unsigned
  | I16x8Abs
  | I16x8Neg
  | I16xQ15MulRangeSaturatedSigned
  | I16x8AllTrue
  | I16x8BitMask
  | I16x8NarrowI32x4Signed
  | I16x8NarrowI32x4Unsigned
  | I16x8ExtendLowI8x16Unsigned
  | I16x8ExtendHighI8x16Unsigned
  | I16x8ExtendLowI8x16Signed
  | I16x8ExtendHighI8x16Signed
  | I16x8Shl
  | I16x8ShrSigned
  | I16x8ShrUnsigned
  | I16x8Add
  | I16x8AddSaturatedSigned
  | I16x8AddSaturatedUnsigned
  | I16x8Sub
  | I16x8SubSaturatedSigned
  | I16x8SubSaturatedUnsigned
  | I16x8Mul
  | I16x8MinSigned
  | I16x8MinUnsigned
  | I16x8MaxSigned
  | I16x8MaxUnsigned
  | I16x8AvgRangeUnsigned
  | I16x8ExtMulLowI8x16Signed
  | I16x8ExtMulHighI8x16Signed
  | I16x8ExtMulLowI8x16Unsigned
  | I16x8ExtMulHighI8x16Unsigned
  | I32x4ExtAddPairWiseI16x8Signed
  | I32x4ExtAddPairWiseI16x8Unsigned
  | I32x4Abs
  | I32x4Neg
  | I32x4AllTrue
  | I32x4BitMask
  | I32x4ExtendLowI16x8Signed
  | I32x4ExtendHighI16x8Signed
  | I32x4ExtendLowI16x8Unsigned
  | I32x4ExtendHighI16x8Unsigned
  | I32x4Shl
  | I32x4ShrSigned
  | I32x4ShrUnsigned
  | I32x4Add
  | I32x4Sub
  | I32x4Mul
  | I32x4MinSigned
  | I32x4MinUnsigned
  | I32x4MaxSigned
  | I32x4MaxUnsigned
  | I32x4DotI16x8Signed
  | I32x4ExtMulLowI16x8Signed
  | I32x4ExtMulHighI16x8Signed
  | I32x4ExtMulLowI16x8Unsigned
  | I32x4ExtMulHighI16x8Unsigned
  | I64x2Abs
  | I64x2Neg
  | I64x2AllTrue
  | I64x2BitMask
  | I64x2ExtendLowI32x4Signed
  | I64x2ExtendHighI32x4Signed
  | I64x2ExtendLowI32x4Unsigned
  | I64x2ExtendHighI32x4Unsigned
  | I64x2Shl
  | I64x2ShrSigned
  | I64x2ShrUnsigned
  | I64x2Add
  | I64x2Sub
  | I64x2Mul
  | I64x2ExtMulLowI32x4Signed
  | I64x2ExtMulHighI32x4Signed
  | I64x2ExtMulLowI32x4Unsigned
  | I64x2ExtMulHighI32x4Unsigned
  | F32x4Ceil
  | F32x4Floor
  | F32x4Trunc
  | F32x4Nearest
  | F32x4Abs
  | F32x4Neg
  | F32x4Sqrt
  | F32x4Add
  | F32x4Sub
  | F32x4Mul
  | F32x4Div
  | F32x4Min
  | F32x4Max
  | F32x4PMin
  | F32x4PMax
  | F64x2Ceil
  | F64x2Floor
  | F64x2Trunc
  | F64x2Nearest
  | F64x2Abs
  | F64x2Neg
  | F64x2Sqrt
  | F64x2Add
  | F64x2Sub
  | F64x2Mul
  | F64x2Div
  | F64x2Min
  | F64x2Max
  | F64x2PMin
  | F64x2PMax
  | I32x4TruncSaturatedF32x4Signed
  | I32x4TruncSaturatedF32x4Unsigned
  | F32x4ConvertI32x4Signed
  | F32x4ConvertI32x4Unsigned
  | I32x4TruncSaturatedF64x2SignedZero
  | I32x4TruncSaturatedF64x2UnsignedZero
  | F64x2ConvertLowI32x4Signed
  | F64x2ConvertLowI32x4Unsigned
  | F32x4DemoteF64x2Zero
  | F64xPromoteLowF32x4

abbrev Expression := List Instruction

structure CustomSection where
  name : Name
  bytes : List Nat

structure TypeSection where
  function_types : List FunctionType

inductive ImportDescription where
  | Func (a : Nat)
  | Table (a : TableType)
  | Mem (a : MemoryType)
  | Global (a : GlobalType)

structure Import where
  module : Name
  name : Name
  description : ImportDescription

structure ImportSection where
  imports : List Import

structure FunctionSection where
  indices : List Nat

structure TableSection where
  tables : List TableType

structure MemorySection where
  memories : List MemoryType

structure Global where
  global_type : GlobalType
  initial_expression : Expression

structure GlobalSection where
  globals : List Global

inductive ExportDescription where
  | Func (a : Nat)
  | Table (a : Nat)
  | Mem (a : Nat)
  | Global (a : Nat)

structure Export where
  name : Name
  description : ExportDescription

structure ExportSection where
  exports : List Export

inductive ElementMode where
  | Passive
  | Active (table_index : Nat) (offset : Expression)
  | Declarative

structure ElementSegment where
  ref_type : RefType
  expression : List Expression
  mode : ElementMode

structure ElementSection where
  elements : List ElementSegment

structure Local where
  count : Nat
  value_type : ValueType

/-- `Function` from `src/binary_grammar.rs` (used by the store and the
interpreter). -/
structure Function where
  type_index : Nat
  locals : List Local
  body : Expression

/-- The `Function` that `parser.rs`'s `parse_code` constructs (from the
`crate::grammar` module, which is not under `src/`): it carries only the
locals and the body expression. -/
structure PFunction where
  locals : List Local
  expression : Expression

structure CodeSection where
  codes : List PFunction

inductive DataMode where
  | Active (memory : Nat) (offset : Expression)
  | Passive

structure DataSegment where
  bytes : List Nat
  mode : DataMode

structure DataSection where
  data_segments : List DataSegment

inductive Section where
  | Custom (a : CustomSection)
  | Type (a : TypeSection)
  | Import (a : ImportSection)
  | Function (a : FunctionSection)
  | Table (a : TableSection)
  | Memory (a : MemorySection)
  | Global (a : GlobalSection)
  | Export (a : ExportSection)
  | Start
  | Element (a : ElementSection)
  | Code (a : CodeSection)
  | Data (a : DataSection)
  | DataCount (a : Nat)

structure Module where
  version : Nat
  types : List FunctionType
  functions : List Function
  tables : List TableType
  mems : List MemoryType
  element_segments : List ElementSegment
  globals : List Global
  data_segments : List DataSegment
  start : Nat
  imports : List Import
  exports : List Export
  customs : List CustomSection


/-! ## `src/parser.rs`

The parser state is the cursor plus the whole buffer; `&mut self` methods
become `PM` actions.  Errors raised with `bail!`/`ensure!` are `PErr.fail`;
a Rust panic (`todo!`, out-of-bounds indexing, underflowing subtraction) is
`PErr.panicked`; mutations made before a failure are kept, as with `&mut self`
in Rust.  Loops whose termination Lean cannot see get a fuel argument, always
called with more fuel than there are bytes in the buffer, so `PErr.fuel` is
unreachable in actual runs. -/

structure PState where
  cursor : Nat
  buffer : List Nat

inductive PErr where
  | fail (msg : String)
  | panicked (msg : String)
  | fuel
  deriving DecidableEq, Repr

abbrev PM (α : Type) := ExceptT PErr (StateM PState) α

namespace Parser

/-- `Parser::eof`. -/
def eof (bytes : Nat) : PM Unit := do
  let p ← get
  if bytes = 0 then
    if p.cursor < p.buffer.length then pure () else throw (.fail "EOF.")
  else
    if p.cursor + bytes ≤ p.buffer.length then pure () else throw (.fail "EOF.")

/-- `Parser::read_u8`. -/
def read_u8 : PM Nat := do
  eof 0
  let p ← get
  let b := p.buffer.getD p.cursor 0
  set { p with cursor := p.cursor + 1 }
  pure b

/-- `Parser::read_u32`: LEB128-decode from a window of at most
`MAX_LEB128_LEN_32` bytes at the cursor. -/
def read_u32 : PM Nat := do
  eof 0
  let p ← get
  let n := min (p.buffer.length - p.cursor) MAX_LEB128_LEN_32
  match Whale.read_u32 ((p.buffer.drop p.cursor).take n) with
  | .ok (x, n') => do
      set { p with cursor := p.cursor + n' }
      pure x
  | .error e => throw (.fail e)

/-- `Parser::read_i32`. -/
def read_i32 : PM Int := do
  eof 0
  let p ← get
  let n := min (p.buffer.length - p.cursor) MAX_LEB128_LEN_32
  match Whale.read_i32 ((p.buffer.drop p.cursor).take n) with
  | .ok (x, n') => do
      set { p with cursor := p.cursor + n' }
      pure x
  | .error e => throw (.fail e)

/-- `Parser::read_i64`. -/
def read_i64 : PM Int := do
  eof 0
  let p ← get
  let n := min (p.buffer.length - p.cursor) MAX_LEB128_LEN_64
  match Whale.read_i64 ((p.buffer.drop p.cursor).take n) with
  | .ok (x, n') => do
      set { p with cursor := p.cursor + n' }
      pure x
  | .error e => throw (.fail e)

/-- `Parser::read_slice`. -/
def read_slice (len : Nat) : PM (List Nat) := do
  eof len
  let p ← get
  let slice := (p.buffer.drop p.cursor).take len
  set { p with cursor := p.cursor + len }
  pure slice

/-- Little-endian byte list to the number it denotes. -/
def le_bytes_to_nat : List Nat → Nat
  | [] => 0
  | b :: rest => b + 256 * le_bytes_to_nat rest

/-- `Parser::read_f32`: `f32::from_le_bytes`; the payload is kept as its raw
bit pattern. -/
def read_f32 : PM Nat := do
  let s ← read_slice 4
  pure (le_bytes_to_nat s)

/-- `Parser::read_f64`: `f64::from_le_bytes`, as raw bits. -/
def read_f64 : PM Nat := do
  let s ← read_slice 8
  pure (le_bytes_to_nat s)

/-- The loop of `Parser::parse_vec`, running `p` `len` times. -/
def parse_vec_go {α : Type} (p : PM α) : Nat → PM (List α)
  | 0 => pure []
  | n+1 => do
      let x ← p
      let rest ← parse_vec_go p n
      pure (x :: rest)

/-- `Parser::parse_vec`: a LEB128 length followed by that many elements. -/
def parse_vec {α : Type} (p : PM α) : PM (List α) := do
  let len ← read_u32
  parse_vec_go p len

/-- Whether `b` is a UTF-8 continuation byte.  Part of the model of
`std::str::from_utf8`. -/
def utf8_cont (b : Nat) : Bool := 0x80 ≤ b && b ≤ 0xBF

/-- Modelled from the spec: `std::str::from_utf8` validation (the function is
from the Rust standard library, not under `src/`); follows the UTF-8 byte
sequence table (RFC 3629). -/
def utf8_valid : List Nat → Bool
  | [] => true
  | b :: rest =>
    if b < 0x80 then utf8_valid rest
    else if 0xC2 ≤ b && b ≤ 0xDF then
      match rest with
      | b2 :: rest2 => utf8_cont b2 && utf8_valid rest2
      | [] => false
    else if b = 0xE0 then
      match rest with
      | b2 :: b3 :: rest3 => (0xA0 ≤ b2 && b2 ≤ 0xBF) && utf8_cont b3 && utf8_valid rest3
      | _ => false
    else if (0xE1 ≤ b && b ≤ 0xEC) || b = 0xEE || b = 0xEF then
      match rest with
      | b2 :: b3 :: rest3 => utf8_cont b2 && utf8_cont b3 && utf8_valid rest3
      | _ => false
    else if b = 0xED then
      match rest with
      | b2 :: b3 :: rest3 => (0x80 ≤ b2 && b2 ≤ 0x9F) && utf8_cont b3 && utf8_valid rest3
      | _ => false
    else if b = 0xF0 then
      match rest with
      | b2 :: b3 :: b4 :: rest4 =>
          (0x90 ≤ b2 && b2 ≤ 0xBF) && utf8_cont b3 && utf8_cont b4 && utf8_valid rest4
      | _ => false
    else if 0xF1 ≤ b && b ≤ 0xF3 then
      match rest with
      | b2 :: b3 :: b4 :: rest4 =>
          utf8_cont b2 && utf8_cont b3 && utf8_cont b4 && utf8_valid rest4
      | _ => false
    else if b = 0xF4 then
      match rest with
      | b2 :: b3 :: b4 :: rest4 =>
          (0x80 ≤ b2 && b2 ≤ 0x8F) && utf8_cont b3 && utf8_cont b4 && utf8_valid rest4
      | _ => false
    else false

/-- `Parser::parse_name`: length-prefixed bytes, validated as UTF-8. -/
def parse_name : PM Name := do
  let n ← read_u32
  let slice ← read_slice n
  if utf8_valid slice then pure slice
  else throw (.fail "invalid utf-8 sequence")

/-- `Parser::parse_reference_type`. -/
def parse_reference_type : PM RefType := do
  let b ← read_u8
  if b = 0x70 then pure .FuncRef
  else if b = 0x6F then pure .ExternRef
  else throw (.fail "Unrecognized reference byte.")

/-- `Parser::parse_value_type`. -/
def parse_value_type : PM ValueType := do
  let b ← read_u8
  if b = 0x7F then pure .I32
  else if b = 0x7E then pure .I64
  else if b = 0x7D then pure .F32
  else if b = 0x7C then pure .F64
  else if b = 0x7B then pure .V128
  else if b = 0x70 then pure (.Ref .FuncRef)
  else if b = 0x6F then pure (.Ref .ExternRef)
  else throw (.fail "Unrecognized type.")

/-- `Parser::parse_result_type`. -/
def parse_result_type : PM ResultType := do
  let ts ← parse_vec parse_value_type
  pure { types := ts }

/-- `Parser::parse_function_type`. -/
def parse_function_type : PM FunctionType := do
  let b ← read_u8
  if b = 0x60 then pure () else throw (.fail "Expected 0x60 introducing a function type")
  let arg_type ← parse_result_type
  let return_type ← parse_result_type
  pure { params := arg_type, results := return_type }

/-- `Parser::parse_limit`: flag `0x00` gives only a min (max is `u32::MAX`),
flag `0x01` gives min then max; anything else fails. -/
def parse_limit : PM Limit := do
  let flag ← read_u8
  if flag = 0x00 || flag = 0x01 then do
    let mn ← read_u32
    let mx ← if flag = 0x01 then read_u32 else pure (2^32 - 1)
    pure { min := mn, max := mx }
  else throw (.fail "Expected flag to be either 0x00 or 0x01.")

/-- `Parser::parse_memory_type`. -/
def parse_memory_type : PM MemoryType := do
  let l ← parse_limit
  pure { limit := l }

/-- `Parser::parse_table_type`. -/
def parse_table_type : PM TableType := do
  let r ← parse_reference_type
  let l ← parse_limit
  pure { element_reference_type := r, limit := l }

/-- `Parser::parse_global_type`. -/
def parse_global_type : PM GlobalType := do
  let vt ← parse_value_type
  let b ← read_u8
  if b = 0x00 then pure { value_type := vt, mutability := .Const }
  else if b = 0x01 then pure { value_type := vt, mutability := .Var }
  else throw (.fail "Unrecognized mutability byte. Expected 0x00 or 0x01.")

/-- `Parser::parse_memarg`. -/
def parse_memarg : PM MemArg := do
  let a ← read_u32
  let o ← read_u32
  pure { align := a, offset := o }

end Parser


namespace Parser

/-- `Parser::parse_block_type`.  The source peeks with `self.buffer[self.cursor]`
(a panicking index), and on a failed `parse_value_type` the cursor stays
advanced past the consumed byte (Rust's `&mut self` keeps the mutation) before
`read_i32` runs. -/
def parse_block_type : PM BlockType := do
  let p ← get
  if p.cursor < p.buffer.length then
    if p.buffer.getD p.cursor 0 = 0x40 then do
      set { p with cursor := p.cursor + 1 }
      pure BlockType.Empty
    else
      tryCatch (do let vt ← parse_value_type; pure (BlockType.SingleValue vt))
        (fun e =>
          match e with
          | .fail _ => do
              let ti ← read_i32
              pure (BlockType.TypeIndex ti)
          | e => throw e)
  else throw (.panicked "index out of bounds")

mutual

/-- `Parser::parse_expression`: instructions up to the terminating `0x0B`. -/
def parse_expression : Nat → PM (List Instruction)
  | 0 => throw .fuel
  | fuel+1 => do
      let opcode ← read_u8
      if opcode = TERM_END_BYTE then pure []
      else do
        let instruction ← parse_instruction fuel opcode
        let rest ← parse_expression fuel
        pure (instruction :: rest)

/-- The loop of `Parser::parse_if_else`, carrying `else_flag`.  Note that on
the `0x05` (else) byte the source sets the flag and then still feeds `0x05` to
`parse_instruction`, which rejects it as an unknown opcode. -/
def parse_if_else_go : Nat → Bool → PM (List Instruction × List Instruction)
  | 0, _ => throw .fuel
  | fuel+1, else_flag => do
      let opcode ← read_u8
      let else_flag := if opcode = TERM_ELSE_BYTE then true else else_flag
      if opcode = TERM_END_BYTE then pure ([], [])
      else do
        let instruction ← parse_instruction fuel opcode
        let (ifs, elses) ← parse_if_else_go fuel else_flag
        if else_flag then pure (ifs, instruction :: elses)
        else pure (instruction :: ifs, elses)

/-- `Parser::parse_instruction`: the full opcode dispatch table. -/
def parse_instruction : Nat → Nat → PM Instruction
  | 0, _ => throw .fuel
  | fuel+1, opcode =>
    match opcode with
      | 0x02 => do
          let a ← parse_block_type
          let b ← parse_expression fuel
          pure (.Block a b)
      | 0x03 => do
          let a ← parse_block_type
          let b ← parse_expression fuel
          pure (.Loop a b)
      | 0x04 => do
          -- the source parses the if/else bodies first, then the block type
          let (if_exprs, else_exprs) ← parse_if_else_go fuel false
          let a ← parse_block_type
          pure (.IfElse a if_exprs else_exprs)
      | 0xFC => do
          let sub ← read_u32
          match sub with
          | 0 => pure .I32TruncSaturatedF32Signed
          | 1 => pure .I32TruncSaturatedF32Unsigned
          | 2 => pure .I32TruncSaturatedF64Signed
          | 3 => pure .I32TruncSaturatedF64Unsigned
          | 4 => pure .I64TruncSaturatedF32Signed
          | 5 => pure .I64TruncSaturatedF32Unsigned
          | 6 => pure .I64TruncSaturatedF64Signed
          | 7 => pure .I64TruncSaturatedF64Unsigned
          | 8 => do
              let x ← read_u32
              let z ← read_u8
              if z = 0x00 then pure (.MemoryInit x)
              else throw (.fail "Expected 0x00 when parsing MemoryInit instr.")
          | 9 => do
              let a ← read_u32
              pure (.DataDrop a)
          | 10 => do
              let z1 ← read_u8
              if z1 = 0x00 then pure () else throw (.fail "Expected 0x00 when parsing MemCopy instr.")
              let z2 ← read_u8
              if z2 = 0x00 then pure () else throw (.fail "Expected 0x00 when parsing MemCopy instr.")
              pure .MemoryCopy
          | 11 => do
              let z ← read_u8
              if z = 0x00 then pure () else throw (.fail "Expected 0x00 when parsing MemFill instr.")
              pure .MemoryFill
          | 12 => do
              let y ← read_u32
              let x ← read_u32
              pure (.TableInit x y)
          | 13 => do
              let a ← read_u32
              pure (.ElemDrop a)
          | 14 => do
              let a ← read_u32
              let b ← read_u32
              pure (.TableCopy a b)
          | 15 => do
              let a ← read_u32
              pure (.TableGrow a)
          | 16 => do
              let a ← read_u32
              pure (.TableSize a)
          | 17 => do
              let a ← read_u32
              pure (.TableFill a)
          | _ => throw (.fail "Encountered foreign table opcode.")
      | 0x3F => do
          let b ← read_u8
          if b = 0x00 then pure .MemorySize
          else throw (.fail "Encountered foreign byte after 0x3F.")
      | 0x40 => do
          let b ← read_u8
          if b = 0x00 then pure .MemoryGrow
          else throw (.fail "Encountered foreign byte after 0x40.")
      | 0x00 => pure .Unreachable
      | 0x01 => pure .Nop
      | 0x0C => do let a ← read_u32; pure (.Br a)
      | 0x0D => do let a ← read_u32; pure (.BrIf a)
      | 0x0E => do let a ← parse_vec read_u32; let b ← read_u32; pure (.BrTable a b)
      | 0x0F => pure .Return
      | 0x10 => do let a ← read_u32; pure (.Call a)
      | 0x11 => do let a ← read_u32; let b ← read_u32; pure (.CallIndirect a b)
      | 0xD0 => do let a ← parse_reference_type; pure (.RefNull a)
      | 0xD1 => pure .RefIsNull
      | 0xD2 => do let a ← read_u32; pure (.RefFunc a)
      | 0x1A => pure .Drop
      | 0x1B => pure (.Select [])
      | 0x1C => do let a ← parse_vec parse_value_type; pure (.Select a)
      | 0x20 => do let a ← read_u32; pure (.LocalGet a)
      | 0x21 => do let a ← read_u32; pure (.LocalSet a)
      | 0x22 => do let a ← read_u32; pure (.LocalTee a)
      | 0x23 => do let a ← read_u32; pure (.GlobalGet a)
      | 0x24 => do let a ← read_u32; pure (.GlobalSet a)
      | 0x25 => do let a ← read_u32; pure (.TableGet a)
      | 0x26 => do let a ← read_u32; pure (.TableSet a)
      | 0x28 => do let a ← parse_memarg; pure (.I32Load a)
      | 0x29 => do let a ← parse_memarg; pure (.I64Load a)
      | 0x2A => do let a ← parse_memarg; pure (.F32Load a)
      | 0x2B => do let a ← parse_memarg; pure (.F64Load a)
      | 0x2C => do let a ← parse_memarg; pure (.I32Load8Signed a)
      | 0x2D => do let a ← parse_memarg; pure (.I32Load8Unsigned a)
      | 0x2E => do let a ← parse_memarg; pure (.I32Load16Signed a)
      | 0x2F => do let a ← parse_memarg; pure (.I32Load16Unsigned a)
      | 0x30 => do let a ← parse_memarg; pure (.I64Load8Signed a)
      | 0x31 => do let a ← parse_memarg; pure (.I64Load8Unsigned a)
      | 0x32 => do let a ← parse_memarg; pure (.I64Load16Signed a)
      | 0x33 => do let a ← parse_memarg; pure (.I64Load16Unsigned a)
      | 0x34 => do let a ← parse_memarg; pure (.I64Load32Signed a)
      | 0x35 => do let a ← parse_memarg; pure (.I64Load32Unsigned a)
      | 0x36 => do let a ← parse_memarg; pure (.I32Store a)
      | 0x37 => do let a ← parse_memarg; pure (.I64Store a)
      | 0x38 => do let a ← parse_memarg; pure (.F32Store a)
      | 0x39 => do let a ← parse_memarg; pure (.F64Store a)
      | 0x3A => do let a ← parse_memarg; pure (.I32Store8 a)
      | 0x3B => do let a ← parse_memarg; pure (.I32Store16 a)
      | 0x3C => do let a ← parse_memarg; pure (.I64Store8 a)
      | 0x3D => do let a ← parse_memarg; pure (.I64Store16 a)
      | 0x3E => do let a ← parse_memarg; pure (.I64Store32 a)
      | 0x41 => do let a ← read_i32; pure (.I32Const a)
      | 0x42 => do let a ← read_i64; pure (.I64Const a)
      | 0x43 => do let a ← read_f32; pure (.F32Const a)
      | 0x44 => do let a ← read_f64; pure (.F64Const a)
      | 0x45 => pure .I32EqZero
      | 0x46 => pure .I32Eq
      | 0x47 => pure .I32Ne
      | 0x48 => pure .I32LtSigned
      | 0x49 => pure .I32LtUnsigned
      | 0x4A => pure .I32GtSigned
      | 0x4B => pure .I32GtUnsigned
      | 0x4C => pure .I32LeSigned
      | 0x4D => pure .I32LeUnsigned
      | 0x4E => pure .I32GeSigned
      | 0x4F => pure .I32GeUnsigned
      | 0x50 => pure .I64EqZero
      | 0x51 => pure .I64Eq
      | 0x52 => pure .I64Ne
      | 0x53 => pure .I64LtSigned
      | 0x54 => pure .I64LtUnsigned
      | 0x55 => pure .I64GtSigned
      | 0x56 => pure .I64GtUnsigned
      | 0x57 => pure .I64LeSigned
      | 0x58 => pure .I64LeUnsigned
      | 0x59 => pure .I64GeSigned
      | 0x5A => pure .I64GeUnsigned
      | 0x5B => pure .F32Eq
      | 0x5C => pure .F32Ne
      | 0x5D => pure .F32Lt
      | 0x5E => pure .F32Gt
      | 0x5F => pure .F32Le
      | 0x60 => pure .F32Ge
      | 0x61 => pure .F64Eq
      | 0x62 => pure .F64Ne
      | 0x63 => pure .F64Lt
      | 0x64 => pure .F64Gt
      | 0x65 => pure .F64Le
      | 0x66 => pure .F64Ge
      | 0x67 => pure .I32CountLeadingZeros
      | 0x68 => pure .I32CountTrailingZeros
      | 0x69 => pure .I32PopCount
      | 0x6A => pure .I32Add
      | 0x6B => pure .I32Sub
      | 0x6C => pure .I32Mul
      | 0x6D => pure .I32DivSigned
      | 0x6E => pure .I32DivUnsigned
      | 0x6F => pure .I32RemainderSigned
      | 0x70 => pure .I32RemainderUnsigned
      | 0x71 => pure .I32And
      | 0x72 => pure .I32Or
      | 0x73 => pure .I32Xor
      | 0x74 => pure .I32Shl
      | 0x75 => pure .I32ShrSigned
      | 0x76 => pure .I32ShrUnsigned
      | 0x77 => pure .I32RotateLeft
      | 0x78 => pure .I32RotateRight
      | 0x79 => pure .I64CountLeadingZeros
      | 0x7A => pure .I64CountTrailingZeros
      | 0x7B => pure .I64PopCount
      | 0x7C => pure .I64Add
      | 0x7D => pure .I64Sub
      | 0x7E => pure .I64Mul
      | 0x7F => pure .I64DivSigned
      | 0x80 => pure .I64DivUnsigned
      | 0x81 => pure .I64RemainderSigned
      | 0x82 => pure .I64RemainderUnsigned
      | 0x83 => pure .I64And
      | 0x84 => pure .I64Or
      | 0x85 => pure .I64Xor
      | 0x86 => pure .I64Shl
      | 0x87 => pure .I64ShrSigned
      | 0x88 => pure .I64ShrUnsigned
      | 0x89 => pure .I64RotateLeft
      | 0x8A => pure .I64RotateRight
      | 0x8B => pure .F32Abs
      | 0x8C => pure .F32Neg
      | 0x8D => pure .F32Ceil
      | 0x8E => pure .F32Floor
      | 0x8F => pure .F32Trunc
      | 0x90 => pure .F32Nearest
      | 0x91 => pure .F32Sqrt
      | 0x92 => pure .F32Add
      | 0x93 => pure .F32Sub
      | 0x94 => pure .F32Mul
      | 0x95 => pure .F32Div
      | 0x96 => pure .F32Min
      | 0x97 => pure .F32Max
      | 0x98 => pure .F32CopySign
      | 0x99 => pure .F64Abs
      | 0x9A => pure .F64Neg
      | 0x9B => pure .F64Ceil
      | 0x9C => pure .F64Floor
      | 0x9D => pure .F64Trunc
      | 0x9E => pure .F64Nearest
      | 0x9F => pure .F64Sqrt
      | 0xA0 => pure .F64Add
      | 0xA1 => pure .F64Sub
      | 0xA2 => pure .F64Mul
      | 0xA3 => pure .F64Div
      | 0xA4 => pure .F64Min
      | 0xA5 => pure .F64Max
      | 0xA6 => pure .F64CopySign
      | 0xA7 => pure .I32WrapI64
      | 0xA8 => pure .I32TruncF32Signed
      | 0xA9 => pure .I32TruncF32Unsigned
      | 0xAA => pure .I32TruncF64Signed
      | 0xAB => pure .I32TruncF64Unsigned
      | 0xAC => pure .I64ExtendI32Signed
      | 0xAD => pure .I64ExtendI32Unsigned
      | 0xAE => pure .I64TruncF32Signed
      | 0xAF => pure .I64TruncF32Unsigned
      | 0xB0 => pure .I64TruncF64Signed
      | 0xB1 => pure .I64TruncF64Unsigned
      | 0xB2 => pure .F32ConvertI32Signed
      | 0xB3 => pure .F32ConvertI32Unsigned
      | 0xB4 => pure .F32ConvertI64Signed
      | 0xB5 => pure .F32ConvertI64Unsigned
      | 0xB6 => pure .F32DemoteF64
      | 0xB7 => pure .F64ConvertI32Signed
      | 0xB8 => pure .F64ConvertI32Unsigned
      | 0xB9 => pure .F64ConvertI64Signed
      | 0xBA => pure .F64ConvertI64Unsigned
      | 0xBB => pure .F64PromoteF32
      | 0xBC => pure .I32ReinterpretF32
      | 0xBD => pure .I64ReinterpretF64
      | 0xBE => pure .F32ReinterpretI32
      | 0xBF => pure .F64ReinterpretI64
      | 0xC0 => pure .I32Extend8Signed
      | 0xC1 => pure .I32Extend16Signed
      | 0xC2 => pure .I64Extend8Signed
      | 0xC3 => pure .I64Extend16Signed
      | 0xC4 => pure .I64Extend32Signed
      | 0xFD => throw (.panicked "Implement the SIMD instructions")
      | _ => throw (.fail "Encountered unknown opcode.")

end

/-- `Parser::parse_if_else`. -/
def parse_if_else (fuel : Nat) : PM (List Instruction × List Instruction) :=
  parse_if_else_go fuel false

end Parser


namespace Parser

/-- `Parser::parse_custom_section`.  `size as usize - name.len()` underflows
(panics) when the name is longer than the declared section size. -/
def parse_custom_section (size : Nat) : PM CustomSection := do
  let name ← parse_name
  if name.length ≤ size then do
    let bytes ← read_slice (size - name.length)
    pure { name := name, bytes := bytes }
  else throw (.panicked "attempt to subtract with overflow")

/-- `Parser::parse_type_section`. -/
def parse_type_section : PM TypeSection := do
  let fts ← parse_vec parse_function_type
  pure { function_types := fts }

/-- `Parser::parse_import`. -/
def parse_import : PM Import := do
  let module ← parse_name
  let name ← parse_name
  let b ← read_u8
  let description ←
    if b = 0x00 then do
      let i ← read_u32
      pure (ImportDescription.Func i)
    else if b = 0x01 then do
      let t ← parse_table_type
      pure (ImportDescription.Table t)
    else if b = 0x02 then do
      let m ← parse_memory_type
      pure (ImportDescription.Mem m)
    else if b = 0x03 then do
      let g ← parse_global_type
      pure (ImportDescription.Global g)
    else throw (.fail "Unrecognized import description.")
  pure { module := module, name := name, description := description }

/-- `Parser::parse_import_section`. -/
def parse_import_section : PM ImportSection := do
  let imports ← parse_vec parse_import
  pure { imports := imports }

/-- `Parser::parse_function_section`. -/
def parse_function_section : PM FunctionSection := do
  let indices ← parse_vec read_u32
  pure { indices := indices }

/-- `Parser::parse_table_section`. -/
def parse_table_section : PM TableSection := do
  let tables ← parse_vec parse_table_type
  pure { tables := tables }

/-- `Parser::parse_memory_section`. -/
def parse_memory_section : PM MemorySection := do
  let memories ← parse_vec parse_memory_type
  pure { memories := memories }

/-- `Parser::parse_global`. -/
def parse_global (fuel : Nat) : PM Global := do
  let gt ← parse_global_type
  let e ← parse_expression fuel
  pure { global_type := gt, initial_expression := e }

/-- `Parser::parse_global_section`. -/
def parse_global_section (fuel : Nat) : PM GlobalSection := do
  let gs ← parse_vec (parse_global fuel)
  pure { globals := gs }

/-- `Parser::parse_export`. -/
def parse_export : PM Export := do
  let name ← parse_name
  let b ← read_u8
  let description ←
    if b = 0x00 then do
      let i ← read_u32
      pure (ExportDescription.Func i)
    else if b = 0x01 then do
      let i ← read_u32
      pure (ExportDescription.Table i)
    else if b = 0x02 then do
      let i ← read_u32
      pure (ExportDescription.Mem i)
    else if b = 0x03 then do
      let i ← read_u32
      pure (ExportDescription.Global i)
    else throw (.fail "Encountered foreign byte when parsing export description.")
  pure { name := name, description := description }

/-- `Parser::parse_export_section`. -/
def parse_export_section : PM ExportSection := do
  let exports ← parse_vec parse_export
  pure { exports := exports }

/-- `Parser::parse_element_segement` (name as in the source). -/
def parse_element_segement (fuel : Nat) : PM ElementSegment := do
  let kind ← read_u32
  match kind with
  | 0 => do
      let offset ← parse_expression fuel
      let idxs ← parse_vec read_u32
      pure { ref_type := .FuncRef,
             expression := [idxs.map Instruction.RefFunc],
             mode := .Active 0 offset }
  | 1 => do
      let z ← read_u8
      if z = 0x00 then pure () else throw (.fail "Expected elemkind 0x00.")
      let idxs ← parse_vec read_u32
      pure { ref_type := .FuncRef,
             expression := [idxs.map Instruction.RefFunc],
             mode := .Passive }
  | 2 => do
      let table_index ← read_u32
      let offset ← parse_expression fuel
      let z ← read_u8
      if z = 0x00 then pure () else throw (.fail "Expected elemkind 0x00.")
      let idxs ← parse_vec read_u32
      pure { ref_type := .FuncRef,
             expression := [idxs.map Instruction.RefFunc],
             mode := .Active table_index offset }
  | 3 => do
      let z ← read_u8
      if z = 0x00 then pure () else throw (.fail "Expected elemkind 0x00.")
      let idxs ← parse_vec read_u32
      pure { ref_type := .FuncRef,
             expression := [idxs.map Instruction.RefFunc],
             mode := .Declarative }
  | 4 => do
      let offset ← parse_expression fuel
      let expression ← parse_vec (parse_expression fuel)
      pure { ref_type := .FuncRef, expression := expression,
             mode := .Active 0 offset }
  | 5 => do
      let ref_type ← parse_reference_type
      let expression ← parse_vec (parse_expression fuel)
      pure { ref_type := ref_type, expression := expression, mode := .Passive }
  | 6 => do
      let table_index ← read_u32
      let offset ← parse_expression fuel
      let ref_type ← parse_reference_type
      let expression ← parse_vec (parse_expression fuel)
      pure { ref_type := ref_type, expression := expression,
             mode := .Active table_index offset }
  | 7 => do
      let ref_type ← parse_reference_type
      let expression ← parse_vec (parse_expression fuel)
      pure { ref_type := ref_type, expression := expression, mode := .Declarative }
  | _ => throw (.fail "Encountered foreign element segement kind.")

/-- `Parser::parse_element_section`. -/
def parse_element_section (fuel : Nat) : PM ElementSection := do
  let es ← parse_vec (parse_element_segement fuel)
  pure { elements := es }

/-- `Parser::parse_local`. -/
def parse_local : PM Local := do
  let count ← read_u32
  let vt ← parse_value_type
  pure { count := count, value_type := vt }

/-- `Parser::parse_code`. -/
def parse_code (fuel : Nat) : PM PFunction := do
  let _size ← read_u32
  let locals ← parse_vec parse_local
  let expression ← parse_expression fuel
  pure { locals := locals, expression := expression }

/-- `Parser::parse_code_section`. -/
def parse_code_section (fuel : Nat) : PM CodeSection := do
  let codes ← parse_vec (parse_code fuel)
  pure { codes := codes }

/-- `Parser::parse_data_segment`. -/
def parse_data_segment (fuel : Nat) : PM DataSegment := do
  let kind ← read_u32
  match kind with
  | 0 => do
      let offset ← parse_expression fuel
      let bytes ← parse_vec read_u8
      pure { bytes := bytes, mode := .Active 0 offset }
  | 1 => do
      let bytes ← parse_vec read_u8
      pure { bytes := bytes, mode := .Passive }
  | 2 => do
      let memory ← read_u32
      let offset ← parse_expression fuel
      let bytes ← parse_vec read_u8
      pure { bytes := bytes, mode := .Active memory offset }
  | _ => throw (.fail "Encountered foreign data kind.")

/-- `Parser::parse_data_section`. -/
def parse_data_section (fuel : Nat) : PM DataSection := do
  let ds ← parse_vec (parse_data_segment fuel)
  pure { data_segments := ds }

/-- `Parser::parse_section`: reads the section size, then dispatches on the
section id.  There is no ordering check of any kind, and the start-section
branch is `todo!("parse start section")`, a panic. -/
def parse_section (fuel : Nat) (id : Nat) : PM Section := do
  let size ← read_u32
  if id = CUSTOM_ID then do
    let s ← parse_custom_section size
    pure (Section.Custom s)
  else if id = TYPE_ID then do
    let s ← parse_type_section
    pure (Section.Type s)
  else if id = IMPORT_ID then do
    let s ← parse_import_section
    pure (Section.Import s)
  else if id = FUNCTION_ID then do
    let s ← parse_function_section
    pure (Section.Function s)
  else if id = TABLE_ID then do
    let s ← parse_table_section
    pure (Section.Table s)
  else if id = MEMORY_ID then do
    let s ← parse_memory_section
    pure (Section.Memory s)
  else if id = GLOBAL_ID then do
    let s ← parse_global_section fuel
    pure (Section.Global s)
  else if id = EXPORT_ID then do
    let s ← parse_export_section
    pure (Section.Export s)
  else if id = START_ID then
    throw (.panicked "parse start section")
  else if id = ELEMENT_ID then do
    let s ← parse_element_section fuel
    pure (Section.Element s)
  else if id = CODE_ID then do
    let s ← parse_code_section fuel
    pure (Section.Code s)
  else if id = DATA_ID then do
    let s ← parse_data_section fuel
    pure (Section.Data s)
  else if id = DATA_COUNT_ID then do
    let n ← read_u32
    pure (Section.DataCount n)
  else
    throw (.fail "Encountered foreign section id.")

/-- `Parser::parse_preamble`. -/
def parse_preamble : PM Nat := do
  let m ← read_slice 4
  if m = MAGIC_NUMBER then pure () else throw (.fail "Expected magic number in preamble.")
  let v ← read_slice 4
  if v = [1, 0, 0, 0] then pure () else throw (.fail "Expected version 1.")
  pure 1

/-- The `while self.cursor < self.buffer.len()` loop of `Parser::parse`:
read a section id byte, parse the section (the `dbg!` print has no state
effect), repeat. -/
def parse_go : Nat → PM Unit
  | 0 => throw .fuel
  | fuel+1 => do
      let p ← get
      if p.cursor < p.buffer.length then do
        let id ← read_u8
        let _section ← parse_section fuel id
        parse_go fuel
      else pure ()

/-- `Parser::parse`: preamble, then sections until EOF. -/
def parse : PM Unit := do
  let _version ← parse_preamble
  let p ← get
  parse_go (p.buffer.length + 1)

end Parser

/-- Run `Parser::parse` on a buffer from cursor 0 (`Parser::new`). -/
def Parser.run (buffer : List Nat) : Except PErr Unit × PState :=
  (ExceptT.run Parser.parse).run { cursor := 0, buffer := buffer }


/-- Claim C8 counterexample: a module whose memory section (id 5) is followed
by a function section (id 3) — non-custom sections in strictly decreasing id
order — parses successfully, although the claim says any such buffer must be
rejected.  The decoder has no section-order check at all. -/
theorem claim_C8_counterexample_out_of_order_accepted :
    (Parser.run ([0x00, 0x61, 0x73, 0x6D, 0x01, 0x00, 0x00, 0x00] ++
      [5, 1, 0, 3, 1, 0])).1 = .ok () := rfl

/-- Claim C8 (amended): the decoder imposes no ordering constraint on
sections; the same two non-custom sections parse in either id order (with a
custom section accepted between them), while an unknown section id is
rejected. -/
theorem claim_C8_no_section_order_check :
    (Parser.run ([0x00, 0x61, 0x73, 0x6D, 0x01, 0x00, 0x00, 0x00] ++
      [5, 1, 0] ++ [0, 2, 1, 0x61, 0x62] ++ [3, 1, 0])).1 = .ok () ∧
    (Parser.run ([0x00, 0x61, 0x73, 0x6D, 0x01, 0x00, 0x00, 0x00] ++
      [3, 1, 0] ++ [0, 2, 1, 0x61, 0x62] ++ [5, 1, 0])).1 = .ok () ∧
    (Parser.run ([0x00, 0x61, 0x73, 0x6D, 0x01, 0x00, 0x00, 0x00] ++
      [13, 1, 0])).1 = .error (.fail "Encountered foreign section id.") :=
  ⟨rfl, rfl, rfl⟩

/-- Claim C9 (failing-input evaluation): the section-id-8 (start section)
branch of `parse_section` is `todo!("parse start section")` — parsing a module
that contains a start section panics instead of returning normally. -/
theorem claim_C9_start_section_panics :
    (Parser.run ([0x00, 0x61, 0x73, 0x6D, 0x01, 0x00, 0x00, 0x00] ++
      [8, 1, 0])).1 = .error (.panicked "parse start section") := rfl


/-! ## `src/execution_grammar.rs`

`Box<dyn Fn()>` host callbacks carry no observable data and are modelled as
`Unit`. -/

inductive Ref where
  | Null
  | FunctionAddr (a : Nat)
  | RefExtern (a : Nat)
  deriving DecidableEq, Repr

inductive Value where
  | I32 (x : Int)
  | I64 (x : Int)
  | F32 (bits : Nat)
  | F64 (bits : Nat)
  | V128 (x : Int)
  | Ref (r : Ref)
  deriving DecidableEq, Repr

/-- `Value::default`. -/
def Value.default (value_type : ValueType) : Value :=
  match value_type with
  | .I32 => .I32 0
  | .I64 => .I64 0
  | .F32 => .F32 0
  | .F64 => .F64 0
  | .V128 => .V128 0
  | .Ref _ => .Ref .Null

inductive ExternalValue where
  | Function (addr : Nat)
  | Table (addr : Nat)
  | Memory (addr : Nat)
  | Global (addr : Nat)
  deriving DecidableEq, Repr

structure ExportInstance where
  name : Name
  value : ExternalValue
  deriving DecidableEq, Repr

structure ModuleInstance where
  types : List FunctionType
  function_addrs : List Nat
  table_addrs : List Nat
  mem_addrs : List Nat
  global_addrs : List Nat
  elem_addrs : List Nat
  data_addrs : List Nat
  exports : List ExportInstance
  deriving DecidableEq, Repr

/-- `ModuleInstance::new`. -/
def ModuleInstance.new (types : List FunctionType) : ModuleInstance :=
  { types := types, function_addrs := [], table_addrs := [], mem_addrs := [],
    global_addrs := [], elem_addrs := [], data_addrs := [], exports := [] }

inductive FunctionInstance where
  | Local (function_type : FunctionType) (module : ModuleInstance) (code : Function)
  | Host (function_type : FunctionType) (code : Unit)

/-- Whether a `FunctionInstance` is the `Local` variant. -/
def FunctionInstance.isLocal : FunctionInstance → Bool
  | .Local _ _ _ => true
  | .Host _ _ => false

structure TableInstance where
  table_type : TableType
  elem : List Ref

structure MemoryInstance where
  memory_type : MemoryType
  data : List Nat

structure GlobalInstance where
  global_type : GlobalType
  value : Value

structure ElementInstance where
  ref_type : RefType
  elem : List Ref

structure DataInstance where
  data : List Nat

inductive ImportValue where
  | Func (f : Unit)
  | Table (t : List Ref)
  | Memory (m : List Nat)
  | Global (g : Value)

structure ExternalImport where
  module : Name
  name : Name
  value : ImportValue

structure Label where
  arity : Nat
  continuation : List Instruction

structure Frame where
  arity : Nat
  locals : List Value
  module : ModuleInstance

/-- `Frame::default()`. -/
def Frame.default : Frame :=
  { arity := 0, locals := [], module := ModuleInstance.new [] }

inductive Entry where
  | Value (v : Value)
  | Label (l : Label)
  | Activation (f : Frame)

/-- The interpreter stack (`Stack(Vec<Entry>)`), with the vector's top (its
end) at the head of the list. -/
abbrev Stack := List Entry

/-- `Stack::new`. -/
def Stack.new : Stack := []

/-- `Stack::push`. -/
def Stack.push (s : Stack) (entry : Entry) : Stack := entry :: s

/-- `Stack::pop`. -/
def Stack.pop (s : Stack) : Option Entry × Stack :=
  match s with
  | [] => (none, [])
  | e :: rest => (some e, rest)

/-- `Stack::len`. -/
def Stack.len (s : Stack) : Nat := s.length

/-- `Stack::pop_n`: `split_off(len - n)`, i.e. the top `n` entries in
bottom-to-top order, or an error when fewer are available. -/
def Stack.pop_n (s : Stack) (n : Nat) : Except String (List Entry × Stack) :=
  if s.len ≥ n then .ok ((s.take n).reverse, s.drop n)
  else .error "Stack must have at least n entries"

/-! ## `src/store.rs` -/

structure Store where
  functions : List FunctionInstance
  tables : List TableInstance
  memories : List MemoryInstance
  globals : List GlobalInstance
  element_segments : List ElementInstance
  data_segments : List DataInstance

/-- `Store::new`. -/
def Store.new : Store :=
  { functions := [], tables := [], memories := [], globals := [],
    element_segments := [], data_segments := [] }

/-- `Store::allocate_function`. -/
def Store.allocate_function (s : Store) (f : Function)
    (module_instance : ModuleInstance) : Except String (Nat × Store) :=
  let f_address := s.functions.length
  match module_instance.types.get? f.type_index with
  | some function_type =>
      .ok (f_address,
        { s with functions :=
            s.functions ++ [.Local function_type module_instance f] })
  | none => .error "Function type index too large to index into module instance types."

/-- `Store::allocate_host_function`. -/
def Store.allocate_host_function (s : Store) (h_f : Unit) (f_idx : Nat)
    (module_instance : ModuleInstance) : Except String (Nat × Store) :=
  let func_address := s.functions.length
  match module_instance.types.get? f_idx with
  | some function_type =>
      .ok (func_address,
        { s with functions := s.functions ++ [.Host function_type h_f] })
  | none => .error "Function type index too large to index into module instance types"

/-- `Store::allocate_table`: an element vector of length `limit.min` filled
with `initial_ref`. -/
def Store.allocate_table (s : Store) (table_type : TableType) (initial_ref : Ref) :
    Except String (Nat × Store) :=
  let n := table_type.limit.min
  let table_address := s.tables.length
  .ok (table_address,
    { s with tables :=
        s.tables ++ [{ table_type := table_type, elem := List.replicate n initial_ref }] })

/-- `Store::allocate_memory`: `vec![0u8; n]` with `n = memory_type.0.min` —
the byte vector has `min` entries (not `min` pages). -/
def Store.allocate_memory (s : Store) (memory_type : MemoryType) :
    Except String (Nat × Store) :=
  let memory_address := s.memories.length
  let n := memory_type.limit.min
  .ok (memory_address,
    { s with memories :=
        s.memories ++ [{ memory_type := memory_type, data := List.replicate n 0 }] })

/-- `Store::allocate_global`. -/
def Store.allocate_global (s : Store) (global : Global) (initializer_value : Value) :
    Except String (Nat × Store) :=
  let global_address := s.globals.length
  .ok (global_address,
    { s with globals :=
        s.globals ++ [{ global_type := global.global_type, value := initializer_value }] })

/-- `Store::allocate_element_segment`. -/
def Store.allocate_element_segment (s : Store) (element_segment : ElementSegment)
    (element_segment_ref : List Ref) : Except String (Nat × Store) :=
  let element_segment_address := s.element_segments.length
  .ok (element_segment_address,
    { s with element_segments :=
        s.element_segments ++
          [{ ref_type := element_segment.ref_type, elem := element_segment_ref }] })

/-- `Store::allocate_data_instance`. -/
def Store.allocate_data_instance (s : Store) (data_segment : DataSegment) :
    Except String (Nat × Store) :=
  let data_address := s.data_segments.length
  .ok (data_address,
    { s with data_segments := s.data_segments ++ [{ data := data_segment.bytes }] })

/-- The `module.functions.into_iter().map(allocate_function).collect()` step of
`allocate_module`. -/
def Store.allocFunctions (s : Store) (mi : ModuleInstance) :
    List Function → Except String (List Nat × Store)
  | [] => .ok ([], s)
  | f :: fs =>
      match s.allocate_function f mi with
      | .ok (a, s') =>
          match s'.allocFunctions mi fs with
          | .ok (as', s'') => .ok (a :: as', s'')
          | .error e => .error e
      | .error e => .error e

/-- The table-allocation map of `allocate_module`. -/
def Store.allocTables (s : Store) : List TableType → Except String (List Nat × Store)
  | [] => .ok ([], s)
  | t :: ts =>
      match s.allocate_table t Ref.Null with
      | .ok (a, s') =>
          match s'.allocTables ts with
          | .ok (as', s'') => .ok (a :: as', s'')
          | .error e => .error e
      | .error e => .error e

/-- The memory-allocation map of `allocate_module`. -/
def Store.allocMems (s : Store) : List MemoryType → Except String (List Nat × Store)
  | [] => .ok ([], s)
  | m :: ms =>
      match s.allocate_memory m with
      | .ok (a, s') =>
          match s'.allocMems ms with
          | .ok (as', s'') => .ok (a :: as', s'')
          | .error e => .error e
      | .error e => .error e

/-- The zipped global-allocation map of `allocate_module`. -/
def Store.allocGlobals (s : Store) :
    List (Global × Value) → Except String (List Nat × Store)
  | [] => .ok ([], s)
  | (g, v) :: gs =>
      match s.allocate_global g v with
      | .ok (a, s') =>
          match s'.allocGlobals gs with
          | .ok (as', s'') => .ok (a :: as', s'')
          | .error e => .error e
      | .error e => .error e

/-- The zipped element-segment-allocation map of `allocate_module`. -/
def Store.allocElems (s : Store) :
    List (ElementSegment × List Ref) → Except String (List Nat × Store)
  | [] => .ok ([], s)
  | (e, r) :: es =>
      match s.allocate_element_segment e r with
      | .ok (a, s') =>
          match s'.allocElems es with
          | .ok (as', s'') => .ok (a :: as', s'')
          | .error e => .error e
      | .error e => .error e

/-- The data-segment-allocation map of `allocate_module`. -/
def Store.allocDatas (s : Store) : List DataSegment → Except String (List Nat × Store)
  | [] => .ok ([], s)
  | d :: ds =>
      match s.allocate_data_instance d with
      | .ok (a, s') =>
          match s'.allocDatas ds with
          | .ok (as', s'') => .ok (a :: as', s'')
          | .error e => .error e
      | .error e => .error e

/-- `imports.iter().position(..)` followed by `imports.remove(index)`. -/
def findRemove (p : ExternalImport → Bool) :
    List ExternalImport → Option (ExternalImport × List ExternalImport)
  | [] => none
  | e :: rest =>
      if p e then some (e, rest)
      else
        match findRemove p rest with
        | some (e', rest') => some (e', e :: rest')
        | none => none

/-- The `for import in module.imports` loop of `allocate_module`: find the
matching supplied import, remove it, allocate it, and append its address to
the corresponding address vector of the module instance. -/
def Store.matchImports (s : Store) (mi : ModuleInstance) :
    List Import → List ExternalImport → Except String (ModuleInstance × Store)
  | [], _ => .ok (mi, s)
  | imp :: imps, ext =>
      match findRemove (fun e => e.module == imp.module && e.name == imp.name) ext with
      | some (e, ext') =>
          match e.value, imp.description with
          | .Func f, .Func f_idx =>
              match s.allocate_host_function f f_idx mi with
              | .ok (addr, s') =>
                  Store.matchImports s'
                    { mi with function_addrs := mi.function_addrs ++ [addr] } imps ext'
              | .error e => .error e
          | .Global value, .Global global_type =>
              let global_addr := s.globals.length
              let s' := { s with globals :=
                  s.globals ++ [{ global_type := global_type, value := value }] }
              Store.matchImports s'
                { mi with global_addrs := mi.global_addrs ++ [global_addr] } imps ext'
          | .Table elem, .Table table_type =>
              let table_addr := s.tables.length
              let s' := { s with tables :=
                  s.tables ++ [{ table_type := table_type, elem := elem }] }
              Store.matchImports s'
                { mi with table_addrs := mi.table_addrs ++ [table_addr] } imps ext'
          | .Memory data, .Mem memory_type =>
              let memory_addr := s.memories.length
              let s' := { s with memories :=
                  s.memories ++ [{ memory_type := memory_type, data := data }] }
              Store.matchImports s'
                { mi with mem_addrs := mi.mem_addrs ++ [memory_addr] } imps ext'
          | _, _ => .error "Mismatched type. todo! impl Debug for ImportValue."
      | none => .error "Unrecognized import."

/-- The `for export in module.exports` loop of `allocate_module`: resolve each
export's index against the per-kind address vector at
`pre_import_*_addr_len + index`.  The Rust `Vec` index panics when out of
bounds; that is an error outcome here. -/
def resolveExports (mi : ModuleInstance) (pre_f pre_t pre_m pre_g : Nat) :
    List Export → Except String (List ExportInstance)
  | [] => .ok []
  | ex :: exs =>
      let value : Except String ExternalValue :=
        match ex.description with
        | .Func f_i =>
            match mi.function_addrs.get? (pre_f + f_i) with
            | some addr => .ok (.Function addr)
            | none => .error "index out of bounds (panic)"
        | .Table t_i =>
            match mi.table_addrs.get? (pre_t + t_i) with
            | some addr => .ok (.Table addr)
            | none => .error "index out of bounds (panic)"
        | .Mem m_i =>
            match mi.mem_addrs.get? (pre_m + m_i) with
            | some addr => .ok (.Memory addr)
            | none => .error "index out of bounds (panic)"
        | .Global g_i =>
            match mi.global_addrs.get? (pre_g + g_i) with
            | some addr => .ok (.Global addr)
            | none => .error "index out of bounds (panic)"
      match value with
      | .ok v =>
          match resolveExports mi pre_f pre_t pre_m pre_g exs with
          | .ok rest => .ok ({ name := ex.name, value := v } :: rest)
          | .error e => .error e
      | .error e => .error e

/-- `Store::allocate_module`.  Note the order: module-declared functions,
tables, memories, globals, element segments and data segments are allocated
(and their addresses recorded) first; matched imports are pushed onto the
address vectors afterwards, and export indices are resolved offset by the
pre-import lengths. -/
def Store.allocate_module (s : Store) (module : Module)
    (imports : List ExternalImport) (initial_global_values : List Value)
    (element_segment_refs : List (List Ref)) :
    Except String (ModuleInstance × Store) :=
  let mi0 := ModuleInstance.new module.types
  match s.allocFunctions mi0 module.functions with
  | .error e => .error e
  | .ok (f_addrs, s1) =>
    let mi1 := { mi0 with function_addrs := f_addrs }
    match s1.allocTables module.tables with
    | .error e => .error e
    | .ok (t_addrs, s2) =>
      let mi2 := { mi1 with table_addrs := t_addrs }
      match s2.allocMems module.mems with
      | .error e => .error e
      | .ok (m_addrs, s3) =>
        let mi3 := { mi2 with mem_addrs := m_addrs }
        if module.globals.length = initial_global_values.length then
          match s3.allocGlobals (module.globals.zip initial_global_values) with
          | .error e => .error e
          | .ok (g_addrs, s4) =>
            let mi4 := { mi3 with global_addrs := g_addrs }
            if module.element_segments.length = element_segment_refs.length then
              match s4.allocElems (module.element_segments.zip element_segment_refs) with
              | .error e => .error e
              | .ok (e_addrs, s5) =>
                let mi5 := { mi4 with elem_addrs := e_addrs }
                match s5.allocDatas module.data_segments with
                | .error e => .error e
                | .ok (d_addrs, s6) =>
                  let mi6 := { mi5 with data_addrs := d_addrs }
                  let pre_import_func_addr_len := mi6.function_addrs.length
                  let pre_import_table_addr_len := mi6.table_addrs.length
                  let pre_import_mem_addr_len := mi6.mem_addrs.length
                  let pre_import_global_addr_len := mi6.global_addrs.length
                  match s6.matchImports mi6 module.imports imports with
                  | .error e => .error e
                  | .ok (mi7, s7) =>
                    match resolveExports mi7 pre_import_func_addr_len
                        pre_import_table_addr_len pre_import_mem_addr_len
                        pre_import_global_addr_len module.exports with
                    | .error e => .error e
                    | .ok exps => .ok ({ mi7 with exports := exps }, s7)
            else .error "Expected equal number of element segments for initial element segment refs"
        else .error "Expected equal number of elements for globals and global initializer values."


theorem range_map_succ_shift (n b : Nat) :
    (List.range (n+1)).map (· + b) = b :: (List.range n).map (· + (b + 1)) := by
  rw [List.range_succ_eq_map, List.map_cons, List.map_map]
  have h : ((· + b) ∘ (· + 1)) = (fun x => x + (b + 1)) := by
    funext x; simp [Function.comp]; omega
  rw [h]
  simp

/-- `allocFunctions` assigns the next consecutive store addresses to the
declared functions, in order, and touches no other store component. -/
theorem allocFunctions_spec (mi : ModuleInstance) :
    ∀ (fs : List Function) (s : Store) (addrs : List Nat) (s' : Store),
    s.allocFunctions mi fs = .ok (addrs, s') →
    addrs = (List.range fs.length).map (· + s.functions.length) ∧
    s'.functions.length = s.functions.length + fs.length ∧
    s'.tables = s.tables ∧ s'.memories = s.memories ∧ s'.globals = s.globals := by
  intro fs
  induction fs with
  | nil =>
      intro s addrs s' h
      unfold Store.allocFunctions at h
      cases h
      simp
  | cons f fs ih =>
      intro s addrs s' h
      unfold Store.allocFunctions at h
      split at h
      next a s1 heq =>
        split at h
        next addrs1 s2 heq2 =>
          cases h
          unfold Store.allocate_function at heq
          split at heq
          next ft hget =>
            cases heq
            obtain ⟨ha, hlen, ht, hm, hg⟩ := ih _ _ _ heq2
            refine ⟨?_, by simp only [List.length_cons]; simp at hlen; omega, by simpa using ht, by simpa using hm, by simpa using hg⟩
            rw [ha]
            simp only [List.length_cons]
            rw [range_map_succ_shift]
            simp
          next => cases heq
        next e heq2 => cases h
      next e heq => cases h


/-- `allocTables` assigns consecutive table addresses and leaves memories and
globals unchanged. -/
theorem allocTables_spec :
    ∀ (ts : List TableType) (s : Store) (addrs : List Nat) (s' : Store),
    s.allocTables ts = .ok (addrs, s') →
    addrs = (List.range ts.length).map (· + s.tables.length) ∧
    s'.tables.length = s.tables.length + ts.length ∧
    s'.memories = s.memories ∧ s'.globals = s.globals := by
  intro ts
  induction ts with
  | nil =>
      intro s addrs s' h
      unfold Store.allocTables at h
      cases h
      simp
  | cons t ts ih =>
      intro s addrs s' h
      unfold Store.allocTables at h
      split at h
      next a s1 heq =>
        split at h
        next addrs1 s2 heq2 =>
          cases h
          unfold Store.allocate_table at heq
          cases heq
          obtain ⟨ha, hlen, hm, hg⟩ := ih _ _ _ heq2
          refine ⟨?_, by simp only [List.length_cons]; simp at hlen; omega,
            by simpa using hm, by simpa using hg⟩
          rw [ha]
          simp only [List.length_cons]
          rw [range_map_succ_shift]
          simp
        next e heq2 => cases h
      next e heq => cases h

/-- `allocMems` assigns consecutive memory addresses and leaves globals
unchanged. -/
theorem allocMems_spec :
    ∀ (ms : List MemoryType) (s : Store) (addrs : List Nat) (s' : Store),
    s.allocMems ms = .ok (addrs, s') →
    addrs = (List.range ms.length).map (· + s.memories.length) ∧
    s'.memories.length = s.memories.length + ms.length ∧
    s'.globals = s.globals := by
  intro ms
  induction ms with
  | nil =>
      intro s addrs s' h
      unfold Store.allocMems at h
      cases h
      simp
  | cons m ms ih =>
      intro s addrs s' h
      unfold Store.allocMems at h
      split at h
      next a s1 heq =>
        split at h
        next addrs1 s2 heq2 =>
          cases h
          unfold Store.allocate_memory at heq
          cases heq
          obtain ⟨ha, hlen, hg⟩ := ih _ _ _ heq2
          refine ⟨?_, by simp only [List.length_cons]; simp at hlen; omega,
            by simpa using hg⟩
          rw [ha]
          simp only [List.length_cons]
          rw [range_map_succ_shift]
          simp
        next e heq2 => cases h
      next e heq => cases h

/-- `allocGlobals` assigns consecutive global addresses. -/
theorem allocGlobals_spec :
    ∀ (gs : List (Global × Value)) (s : Store) (addrs : List Nat) (s' : Store),
    s.allocGlobals gs = .ok (addrs, s') →
    addrs = (List.range gs.length).map (· + s.globals.length) := by
  intro gs
  induction gs with
  | nil =>
      intro s addrs s' h
      unfold Store.allocGlobals at h
      cases h
      simp
  | cons gv gs ih =>
      intro s addrs s' h
      unfold Store.allocGlobals at h
      split at h
      next a s1 heq =>
        split at h
        next addrs1 s2 heq2 =>
          cases h
          unfold Store.allocate_global at heq
          cases heq
          have ha := ih _ _ _ heq2
          rw [ha]
          simp only [List.length_cons]
          rw [range_map_succ_shift]
          simp
        next e heq2 => cases h
      next e heq => cases h

/-- The import loop only appends to the per-kind address vectors. -/
theorem matchImports_appends :
    ∀ (imps : List Import) (ext : List ExternalImport) (s : Store)
      (mi mi' : ModuleInstance) (s' : Store),
    s.matchImports mi imps ext = .ok (mi', s') →
    ∃ l1 l2 l3 l4,
      mi'.function_addrs = mi.function_addrs ++ l1 ∧
      mi'.table_addrs = mi.table_addrs ++ l2 ∧
      mi'.mem_addrs = mi.mem_addrs ++ l3 ∧
      mi'.global_addrs = mi.global_addrs ++ l4 := by
  intro imps
  induction imps with
  | nil =>
      intro ext s mi mi' s' h
      unfold Store.matchImports at h
      cases h
      exact ⟨[], [], [], [], by simp, by simp, by simp, by simp⟩
  | cons imp imps ih =>
      intro ext s mi mi' s' h
      unfold Store.matchImports at h
      split at h
      next e ext' heq =>
        split at h
        next f f_idx =>
          split at h
          next addr s1 heq2 =>
            obtain ⟨l1, l2, l3, l4, h1, h2, h3, h4⟩ := ih _ _ _ _ _ h
            exact ⟨addr :: l1, l2, l3, l4,
              by simpa using h1, by simpa using h2, by simpa using h3, by simpa using h4⟩
          next e heq2 => cases h
        next value global_type =>
          obtain ⟨l1, l2, l3, l4, h1, h2, h3, h4⟩ := ih _ _ _ _ _ h
          exact ⟨l1, l2, l3, (s.globals.length) :: l4,
            by simpa using h1, by simpa using h2, by simpa using h3, by simpa using h4⟩
        next elem table_type =>
          obtain ⟨l1, l2, l3, l4, h1, h2, h3, h4⟩ := ih _ _ _ _ _ h
          exact ⟨l1, (s.tables.length) :: l2, l3, l4,
            by simpa using h1, by simpa using h2, by simpa using h3, by simpa using h4⟩
        next data memory_type =>
          obtain ⟨l1, l2, l3, l4, h1, h2, h3, h4⟩ := ih _ _ _ _ _ h
          exact ⟨l1, l2, (s.memories.length) :: l3, l4,
            by simpa using h1, by simpa using h2, by simpa using h3, by simpa using h4⟩
        next => cases h
      next heq => cases h


/-- Claim C4 (amended): during `allocate_module` the module-declared
functions, tables, memories and globals are allocated first and occupy the
front of the per-kind address vectors — consecutive store addresses starting
at the pre-existing store sizes — and matched imports are appended after
them, so for each kind index 0 of the address vector refers to the first
module-declared item, not the first import (export indices are resolved
offset by the pre-import lengths to compensate). -/
theorem claim_C4_declared_before_imports (s : Store) (module : Module)
    (imports : List ExternalImport) (gvals : List Value) (erefs : List (List Ref))
    (inst : ModuleInstance) (s' : Store)
    (h : s.allocate_module module imports gvals erefs = .ok (inst, s')) :
    inst.function_addrs.take module.functions.length =
      (List.range module.functions.length).map (· + s.functions.length) ∧
    inst.table_addrs.take module.tables.length =
      (List.range module.tables.length).map (· + s.tables.length) ∧
    inst.mem_addrs.take module.mems.length =
      (List.range module.mems.length).map (· + s.memories.length) ∧
    inst.global_addrs.take module.globals.length =
      (List.range module.globals.length).map (· + s.globals.length) := by
  unfold Store.allocate_module at h
  cases hF : s.allocFunctions (ModuleInstance.new module.types) module.functions with
  | error e => simp only [hF] at h; cases h
  | ok pF =>
  obtain ⟨f_addrs, s1⟩ := pF
  simp only [hF] at h
  cases hT : s1.allocTables module.tables with
  | error e => simp only [hT] at h; cases h
  | ok pT =>
  obtain ⟨t_addrs, s2⟩ := pT
  simp only [hT] at h
  cases hM : s2.allocMems module.mems with
  | error e => simp only [hM] at h; cases h
  | ok pM =>
  obtain ⟨m_addrs, s3⟩ := pM
  simp only [hM] at h
  by_cases hglen : module.globals.length = gvals.length
  case neg => rw [if_neg hglen] at h; cases h
  rw [if_pos hglen] at h
  cases hG : s3.allocGlobals (module.globals.zip gvals) with
  | error e => simp only [hG] at h; cases h
  | ok pG =>
  obtain ⟨g_addrs, s4⟩ := pG
  simp only [hG] at h
  by_cases helen : module.element_segments.length = erefs.length
  case neg => rw [if_neg helen] at h; cases h
  rw [if_pos helen] at h
  cases hE : s4.allocElems (module.element_segments.zip erefs) with
  | error e => simp only [hE] at h; cases h
  | ok pE =>
  obtain ⟨e_addrs, s5⟩ := pE
  simp only [hE] at h
  cases hD : s5.allocDatas module.data_segments with
  | error e => simp only [hD] at h; cases h
  | ok pD =>
  obtain ⟨d_addrs, s6⟩ := pD
  simp only [hD] at h
  cases hI : s6.matchImports
      { types := (ModuleInstance.new module.types).types,
        function_addrs := f_addrs, table_addrs := t_addrs, mem_addrs := m_addrs,
        global_addrs := g_addrs, elem_addrs := e_addrs, data_addrs := d_addrs,
        exports := (ModuleInstance.new module.types).exports }
      module.imports imports with
  | error e => rw [hI] at h; simp at h
  | ok pI =>
  obtain ⟨mi7, s7⟩ := pI
  rw [hI] at h
  simp only [] at h
  cases hX : resolveExports mi7 f_addrs.length t_addrs.length m_addrs.length
      g_addrs.length module.exports with
  | error e => rw [hX] at h; simp at h
  | ok exps =>
  rw [hX] at h
  simp only [Except.ok.injEq, Prod.mk.injEq] at h
  obtain ⟨h1, h2⟩ := h
  subst h1
  subst h2
  obtain ⟨haF, hlenF, htF, hmF, hgF⟩ := allocFunctions_spec _ _ _ _ _ hF
  obtain ⟨haT, hlenT, hmT, hgT⟩ := allocTables_spec _ _ _ _ hT
  obtain ⟨haM, hlenM, hgM⟩ := allocMems_spec _ _ _ _ hM
  have haG := allocGlobals_spec _ _ _ _ hG
  obtain ⟨l1, l2, l3, l4, q1, q2, q3, q4⟩ := matchImports_appends _ _ _ _ _ _ hI
  simp only at q1 q2 q3 q4
  have hflen : f_addrs.length = module.functions.length := by rw [haF]; simp
  have htlen : t_addrs.length = module.tables.length := by rw [haT]; simp
  have hmlen : m_addrs.length = module.mems.length := by rw [haM]; simp
  have hglen2 : g_addrs.length = module.globals.length := by
    rw [haG]; simp; omega
  refine ⟨?_, ?_, ?_, ?_⟩
  · show mi7.function_addrs.take module.functions.length = _
    rw [q1, List.take_left' hflen, haF]
  · show mi7.table_addrs.take module.tables.length = _
    rw [q2, List.take_left' htlen, haT, htF]
  · show mi7.mem_addrs.take module.mems.length = _
    rw [q3, List.take_left' hmlen, haM, hmT, hmF]
  · show mi7.global_addrs.take module.globals.length = _
    rw [q4, List.take_left' hglen2, haG, hgM, hgT, hgF, List.length_zip]
    have hmin : min module.globals.length gvals.length = module.globals.length := by omega
    rw [hmin]

/-- The module of the C4 counterexample: one declared function of type
`() → ()` and one function import `"env"."f"` of the same type. -/
def c4_module : Module :=
  { version := 1,
    types := [{ params := { types := [] }, results := { types := [] } }],
    functions := [{ type_index := 0, locals := [], body := [] }],
    tables := [], mems := [], element_segments := [], globals := [],
    data_segments := [], start := 0,
    imports := [{ module := [0x65, 0x6E, 0x76], name := [0x66],
                  description := .Func 0 }],
    exports := [], customs := [] }

/-- The supplied external import matching the declared `"env"."f"` import. -/
def c4_imports : List ExternalImport :=
  [{ module := [0x65, 0x6E, 0x76], name := [0x66], value := .Func () }]

/-- Claim C4 counterexample: allocating `c4_module` into an empty store gives
`function_addrs = [0, 1]` where store slot 0 holds the module-declared
(`Local`) function and slot 1 the imported (`Host`) one — index 0 refers to
the first module-declared function, not the first imported function as the
claim states. -/
theorem claim_C4_counterexample_import_not_first :
    (Store.new.allocate_module c4_module c4_imports [] []).map
      (fun r => (r.1.function_addrs, r.2.functions.map FunctionInstance.isLocal)) =
    .ok ([0, 1], [true, false]) := rfl

/-- The module instance produced by the C4 counterexample run. -/
def c4_inst : ModuleInstance :=
  match Store.new.allocate_module c4_module c4_imports [] [] with
  | .ok (i, _) => i
  | .error _ => ModuleInstance.new []

/-- The store produced by the C4 counterexample run. -/
def c4_store : Store :=
  match Store.new.allocate_module c4_module c4_imports [] [] with
  | .ok (_, s) => s
  | .error _ => Store.new

/-- Witness for the amended C4 theorem at the concrete module `c4_module`. -/
theorem claim_C4_declared_before_imports_witness :
    c4_inst.function_addrs.take c4_module.functions.length =
      (List.range c4_module.functions.length).map (· + Store.new.functions.length) ∧
    c4_inst.table_addrs.take c4_module.tables.length =
      (List.range c4_module.tables.length).map (· + Store.new.tables.length) ∧
    c4_inst.mem_addrs.take c4_module.mems.length =
      (List.range c4_module.mems.length).map (· + Store.new.memories.length) ∧
    c4_inst.global_addrs.take c4_module.globals.length =
      (List.range c4_module.globals.length).map (· + Store.new.globals.length) :=
  claim_C4_declared_before_imports Store.new c4_module c4_imports [] []
    c4_inst c4_store (by rfl)

/-- Claim C5 (failing-input evaluation): `allocate_memory` for a memory type
with `min = 1` appends a memory instance whose byte vector is `[0]` — one
zero byte, not `1 × 65536` zero bytes — and returns the new address 0. -/
theorem claim_C5_allocate_memory_min_bytes :
    (Store.new.allocate_memory { limit := { min := 1, max := 2^32 - 1 } }).map
      (fun r => (r.1, r.2.memories.map (fun m => m.data))) = .ok (0, [[0]]) := rfl


/-! ## `src/interpreter.rs`

`f32`/`f64` payloads are raw bit patterns; the IEEE-754 operations the
implemented float arms use are abstracted into a `FloatSemantics` record that
the evaluator is parameterized over (no claim depends on float semantics).
`Stack::pop_as_value::<T>` and `Stack::push_value` are called by
`interpreter.rs` but are not defined in any file under `src/`; they are
modelled from the spec's value/stack model: pop the top entry, which must be
a `Value` with the requested tag; push wraps a value in an `Entry::Value`. -/

structure FloatSemantics where
  f32_abs : Nat → Nat
  f32_neg : Nat → Nat
  f32_sqrt : Nat → Nat
  f32_add : Nat → Nat → Nat
  f32_sub : Nat → Nat → Nat
  f32_mul : Nat → Nat → Nat
  f32_min : Nat → Nat → Nat
  f32_max : Nat → Nat → Nat
  f32_eq : Nat → Nat → Bool
  f64_abs : Nat → Nat
  f64_neg : Nat → Nat
  f64_sqrt : Nat → Nat
  f64_add : Nat → Nat → Nat
  f64_sub : Nat → Nat → Nat
  f64_mul : Nat → Nat → Nat
  f64_min : Nat → Nat → Nat
  f64_max : Nat → Nat → Nat
  f64_eq : Nat → Nat → Bool

inductive IErr where
  | fail (msg : String)
  | panicked (msg : String)
  deriving DecidableEq, Repr

/-- The interpreter's effect monad: the mutable `self.stack` plus `anyhow`
errors (`fail`) and panics (`panicked`). -/
abbrev IM (α : Type) := ExceptT IErr (StateM Stack) α

/-- Run an interpreter action on a starting stack. -/
def interp_run {α : Type} (m : IM α) (st : Stack) : Except IErr α × Stack :=
  (ExceptT.run m).run st

/-- Modelled from the spec: `Stack::pop_as_value::<i32>` (not under `src/`) —
pop the top stack entry, which must be an `i32` value. -/
def pop_as_i32 : IM Int := do
  let st ← get
  match st with
  | Entry.Value (Value.I32 x) :: rest => do
      set rest
      pure x
  | _ => throw (.fail "Expected an i32 value on top of the stack.")

/-- Modelled from the spec: `Stack::pop_as_value::<i64>` (not under `src/`). -/
def pop_as_i64 : IM Int := do
  let st ← get
  match st with
  | Entry.Value (Value.I64 x) :: rest => do
      set rest
      pure x
  | _ => throw (.fail "Expected an i64 value on top of the stack.")

/-- Modelled from the spec: `Stack::pop_as_value::<f32>` (not under `src/`). -/
def pop_as_f32 : IM Nat := do
  let st ← get
  match st with
  | Entry.Value (Value.F32 x) :: rest => do
      set rest
      pure x
  | _ => throw (.fail "Expected an f32 value on top of the stack.")

/-- Modelled from the spec: `Stack::pop_as_value::<f64>` (not under `src/`). -/
def pop_as_f64 : IM Nat := do
  let st ← get
  match st with
  | Entry.Value (Value.F64 x) :: rest => do
      set rest
      pure x
  | _ => throw (.fail "Expected an f64 value on top of the stack.")

/-- Modelled from the spec: `Stack::push_value` (not under `src/`) — push a
value entry. -/
def push_value (v : Value) : IM Unit := do
  let st ← get
  set (st.push (Entry.Value v))

/-- Wrapping reduction into the `i64` value range. -/
def wrap64 (z : Int) : Int := (z + 2^63) % 2^64 - 2^63

/-- Bit pattern of an `i64` value. -/
def toU64 (z : Int) : Nat := (z % (2^64 : Int)).toNat

/-- Machine `i64` bitwise and. -/
def i64_and (a b : Int) : Int := fromU64 (toU64 a &&& toU64 b)

/-- `u32::leading_zeros` of the bit pattern of an `i32`
(`a.leading_zeros() as i32` in the source). -/
def i32_leading_zeros (x : Int) : Int :=
  let p := toU32 x
  if p = 0 then 32 else 31 - Nat.log2 p

/-- `u32::trailing_zeros` of the bit pattern of an `i32`. -/
def i32_trailing_zeros (x : Int) : Int :=
  let p := toU32 x
  ((List.range 32).find? (fun i => p.testBit i)).getD 32

/-- `u64::leading_zeros` of the bit pattern of an `i64`. -/
def i64_leading_zeros (x : Int) : Int :=
  let p := toU64 x
  if p = 0 then 64 else 63 - Nat.log2 p

/-- `u64::trailing_zeros` of the bit pattern of an `i64`. -/
def i64_trailing_zeros (x : Int) : Int :=
  let p := toU64 x
  ((List.range 64).find? (fun i => p.testBit i)).getD 64

/-- `Interpreter::invoke_expression`: the `for instruction in expression`
loop with its full dispatch.  Every arm written `=> {}` in the source is a
no-op (`pure ()`); the `I64Or` arm pops both operands but pushes nothing
(its push is commented out in the source). -/
def invoke_expression (FS : FloatSemantics) :
    List Instruction → Frame → IM Unit
  | [], _ => pure ()
  | instruction :: rest, _frame => do
      (match instruction with
       | .Unreachable => pure ()
       | .Nop => pure ()
       | .Block _ _ => pure ()
       | .Loop _ _ => pure ()
       | .IfElse _ _ _ => pure ()
       | .Br _ => pure ()
       | .BrIf _ => pure ()
       | .BrTable _ _ => pure ()
       | .Return => pure ()
       | .Call _ => pure ()
       | .CallIndirect _ _ => pure ()
       | .RefNull _ => pure ()
       | .RefIsNull => pure ()
       | .RefFunc _ => pure ()
       | .Drop => pure ()
       | .Select _ => pure ()
       | .LocalGet _ => pure ()
       | .LocalSet _ => pure ()
       | .LocalTee _ => pure ()
       | .GlobalGet _ => pure ()
       | .GlobalSet _ => pure ()
       | .TableGet _ => pure ()
       | .TableSet _ => pure ()
       | .TableInit _ _ => pure ()
       | .ElemDrop _ => pure ()
       | .TableCopy _ _ => pure ()
       | .TableGrow _ => pure ()
       | .TableSize _ => pure ()
       | .TableFill _ => pure ()
       | .I32Load _ => pure ()
       | .I64Load _ => pure ()
       | .F32Load _ => pure ()
       | .F64Load _ => pure ()
       | .I32Load8Signed _ => pure ()
       | .I32Load8Unsigned _ => pure ()
       | .I32Load16Signed _ => pure ()
       | .I32Load16Unsigned _ => pure ()
       | .I64Load8Signed _ => pure ()
       | .I64Load8Unsigned _ => pure ()
       | .I64Load16Signed _ => pure ()
       | .I64Load16Unsigned _ => pure ()
       | .I64Load32Signed _ => pure ()
       | .I64Load32Unsigned _ => pure ()
       | .I32Store _ => pure ()
       | .I64Store _ => pure ()
       | .F32Store _ => pure ()
       | .F64Store _ => pure ()
       | .I32Store8 _ => pure ()
       | .I32Store16 _ => pure ()
       | .I64Store8 _ => pure ()
       | .I64Store16 _ => pure ()
       | .I64Store32 _ => pure ()
       | .MemorySize => pure ()
       | .MemoryGrow => pure ()
       | .MemoryInit _ => pure ()
       | .DataDrop _ => pure ()
       | .MemoryCopy => pure ()
       | .MemoryFill => pure ()
       | .I32Const _ => pure ()
       | .I64Const _ => pure ()
       | .F32Const _ => pure ()
       | .F64Const _ => pure ()
       | .I32EqZero => pure ()
       | .I32Eq => do
           let a ← pop_as_i32
           let b ← pop_as_i32
           push_value (.I32 (if a = b then 1 else 0))
       | .I32Ne => do
           let a ← pop_as_i32
           let b ← pop_as_i32
           push_value (.I32 (if a ≠ b then 1 else 0))
       | .I32LtSigned => pure ()
       | .I32LtUnsigned => pure ()
       | .I32GtSigned => pure ()
       | .I32GtUnsigned => pure ()
       | .I32LeSigned => pure ()
       | .I32LeUnsigned => pure ()
       | .I32GeSigned => pure ()
       | .I32GeUnsigned => pure ()
       | .I64EqZero => do
           let a ← pop_as_i64
           push_value (.I32 (if a = 0 then 1 else 0))
       | .I64Eq => do
           let a ← pop_as_i64
           let b ← pop_as_i64
           push_value (.I32 (if a = b then 1 else 0))
       | .I64Ne => do
           let a ← pop_as_i64
           let b ← pop_as_i64
           push_value (.I32 (if a ≠ b then 1 else 0))
       | .I64LtSigned => pure ()
       | .I64LtUnsigned => pure ()
       | .I64GtSigned => pure ()
       | .I64GtUnsigned => pure ()
       | .I64LeSigned => pure ()
       | .I64LeUnsigned => pure ()
       | .I64GeSigned => pure ()
       | .I64GeUnsigned => pure ()
       | .F32Eq => do
           let a ← pop_as_f32
           let b ← pop_as_f32
           push_value (.I32 (if FS.f32_eq a b then 1 else 0))
       | .F32Ne => do
           let a ← pop_as_f32
           let b ← pop_as_f32
           push_value (.I32 (if !(FS.f32_eq a b) then 1 else 0))
       | .F32Lt => pure ()
       | .F32Gt => pure ()
       | .F32Le => pure ()
       | .F32Ge => pure ()
       | .F64Eq => pure ()
       | .F64Ne => pure ()
       | .F64Lt => pure ()
       | .F64Gt => pure ()
       | .F64Le => pure ()
       | .F64Ge => pure ()
       | .I32CountLeadingZeros => do
           let a ← pop_as_i32
           push_value (.I32 (i32_leading_zeros a))
       | .I32CountTrailingZeros => do
           let a ← pop_as_i32
           push_value (.I32 (i32_trailing_zeros a))
       | .I32PopCount => pure ()
       | .I32Add => do
           let a ← pop_as_i32
           let b ← pop_as_i32
           push_value (.I32 (wrap32 (a + b)))
       | .I32Sub => do
           let a ← pop_as_i32
           let b ← pop_as_i32
           push_value (.I32 (wrap32 (b - a)))
       | .I32Mul => do
           let a ← pop_as_i32
           let b ← pop_as_i32
           push_value (.I32 (wrap32 (a * b)))
       | .I32DivSigned => pure ()
       | .I32DivUnsigned => pure ()
       | .I32RemainderSigned => pure ()
       | .I32RemainderUnsigned => pure ()
       | .I32And => pure ()
       | .I32Or => pure ()
       | .I32Xor => pure ()
       | .I32Shl => pure ()
       | .I32ShrSigned => pure ()
       | .I32ShrUnsigned => pure ()
       | .I32RotateLeft => pure ()
       | .I32RotateRight => pure ()
       | .I64CountLeadingZeros => do
           let a ← pop_as_i64
           push_value (.I32 (i64_leading_zeros a))
       | .I64CountTrailingZeros => do
           let a ← pop_as_i64
           push_value (.I32 (i64_trailing_zeros a))
       | .I64PopCount => pure ()
       | .I64Add => do
           let a ← pop_as_i64
           let b ← pop_as_i64
           push_value (.I64 (wrap64 (a + b)))
       | .I64Sub => do
           let a ← pop_as_i64
           let b ← pop_as_i64
           push_value (.I64 (wrap64 (b - a)))
       | .I64Mul => do
           let a ← pop_as_i64
           let b ← pop_as_i64
           push_value (.I64 (wrap64 (a * b)))
       | .I64DivSigned => pure ()
       | .I64DivUnsigned => pure ()
       | .I64RemainderSigned => pure ()
       | .I64RemainderUnsigned => pure ()
       | .I64And => do
           let a ← pop_as_i64
           let b ← pop_as_i64
           push_value (.I64 (i64_and a b))
       | .I64Or => do
           let _a ← pop_as_i64
           let _b ← pop_as_i64
           pure ()
       | .I64Xor => pure ()
       | .I64Shl => pure ()
       | .I64ShrSigned => pure ()
       | .I64ShrUnsigned => pure ()
       | .I64RotateLeft => pure ()
       | .I64RotateRight => pure ()
       | .F32Abs => do
           let a ← pop_as_f32
           push_value (.F32 (FS.f32_abs a))
       | .F32Neg => do
           let a ← pop_as_f32
           push_value (.F32 (FS.f32_neg a))
       | .F32Ceil => pure ()
       | .F32Floor => pure ()
       | .F32Trunc => pure ()
       | .F32Nearest => pure ()
       | .F32Sqrt => do
           let a ← pop_as_f32
           push_value (.F32 (FS.f32_sqrt a))
       | .F32Add => do
           let a ← pop_as_f32
           let b ← pop_as_f32
           push_value (.F32 (FS.f32_add a b))
       | .F32Sub => do
           let a ← pop_as_f32
           let b ← pop_as_f32
           push_value (.F32 (FS.f32_sub b a))
       | .F32Mul => do
           let a ← pop_as_f32
           let b ← pop_as_f32
           push_value (.F32 (FS.f32_mul a b))
       | .F32Div => pure ()
       | .F32Min => do
           let a ← pop_as_f32
           let b ← pop_as_f32
           push_value (.F32 (FS.f32_min a b))
       | .F32Max => do
           let a ← pop_as_f32
           let b ← pop_as_f32
           push_value (.F32 (FS.f32_max a b))
       | .F32CopySign => pure ()
       | .F64Abs => do
           let a ← pop_as_f64
           push_value (.F64 (FS.f64_abs a))
       | .F64Neg => do
           let a ← pop_as_f64
           push_value (.F64 (FS.f64_neg a))
       | .F64Ceil => pure ()
       | .F64Floor => pure ()
       | .F64Trunc => pure ()
       | .F64Nearest => pure ()
       | .F64Sqrt => do
           let a ← pop_as_f64
           push_value (.F64 (FS.f64_sqrt a))
       | .F64Add => do
           let a ← pop_as_f64
           let b ← pop_as_f64
           push_value (.F64 (FS.f64_add a b))
       | .F64Sub => do
           let a ← pop_as_f64
           let b ← pop_as_f64
           push_value (.F64 (FS.f64_sub b a))
       | .F64Mul => do
           let a ← pop_as_f64
           let b ← pop_as_f64
           push_value (.F64 (FS.f64_mul a b))
       | .F64Div => pure ()
       | .F64Min => do
           let a ← pop_as_f64
           let b ← pop_as_f64
           push_value (.F64 (FS.f64_min a b))
       | .F64Max => do
           let a ← pop_as_f64
           let b ← pop_as_f64
           push_value (.F64 (FS.f64_max a b))
       | .F64CopySign => pure ()
       | .I32WrapI64 => pure ()
       | .I32TruncF32Signed => pure ()
       | .I32TruncF32Unsigned => pure ()
       | .I32TruncF64Signed => pure ()
       | .I32TruncF64Unsigned => pure ()
       | .I64ExtendI32Signed => pure ()
       | .I64ExtendI32Unsigned => pure ()
       | .I64TruncF32Signed => pure ()
       | .I64TruncF32Unsigned => pure ()
       | .I64TruncF64Signed => pure ()
       | .I64TruncF64Unsigned => pure ()
       | .F32ConvertI32Signed => pure ()
       | .F32ConvertI32Unsigned => pure ()
       | .F32ConvertI64Signed => pure ()
       | .F32ConvertI64Unsigned => pure ()
       | .F32DemoteF64 => pure ()
       | .F64ConvertI32Signed => pure ()
       | .F64ConvertI32Unsigned => pure ()
       | .F64ConvertI64Signed => pure ()
       | .F64ConvertI64Unsigned => pure ()
       | .F64PromoteF32 => pure ()
       | .I32ReinterpretF32 => pure ()
       | .I64ReinterpretF64 => pure ()
       | .F32ReinterpretI32 => pure ()
       | .F64ReinterpretI64 => pure ()
       | .I32Extend8Signed => pure ()
       | .I32Extend16Signed => pure ()
       | .I64Extend8Signed => pure ()
       | .I64Extend16Signed => pure ()
       | .I64Extend32Signed => pure ()
       | .I32TruncSaturatedF32Signed => pure ()
       | .I32TruncSaturatedF32Unsigned => pure ()
       | .I32TruncSaturatedF64Signed => pure ()
       | .I32TruncSaturatedF64Unsigned => pure ()
       | .I64TruncSaturatedF32Signed => pure ()
       | .I64TruncSaturatedF32Unsigned => pure ()
       | .I64TruncSaturatedF64Signed => pure ()
       | .I64TruncSaturatedF64Unsigned => pure ()
       | .V128Load _ => pure ()
       | .V128Load8x8Signed _ => pure ()
       | .V128Load8x8Unsigned _ => pure ()
       | .V128Load16x4Unsigned _ => pure ()
       | .V128Load16x4Signed _ => pure ()
       | .V128Load32x2Signed _ => pure ()
       | .V128Load32x2Unsigned _ => pure ()
       | .V128Load8Splat _ => pure ()
       | .V128Load16Splat _ => pure ()
       | .V128Load32Splat _ => pure ()
       | .V128Load64Splat _ => pure ()
       | .V128Load32Zero _ => pure ()
       | .V128Load64Zero _ => pure ()
       | .V128Store _ => pure ()
       | .V128Load8Lane _ _ => pure ()
       | .V128Load16Lane _ _ => pure ()
       | .V128Load32Lane _ _ => pure ()
       | .V128Load64Lane _ _ => pure ()
       | .V128Store8Lane _ _ => pure ()
       | .V128Store16Lane _ _ => pure ()
       | .V128Store32Lane _ _ => pure ()
       | .V128Store64Lane _ _ => pure ()
       | .V128Const _ => pure ()
       | .I8x16Shuffle _ => pure ()
       | .I8x16ExtractLaneSigned _ => pure ()
       | .I8x16ExtractLaneUnsigned _ => pure ()
       | .I8x16ReplaceLane _ => pure ()
       | .I16x8ExtractLaneSigned _ => pure ()
       | .I16x8ExtractLaneUnsigned _ => pure ()
       | .I16x8ReplaceLane _ => pure ()
       | .I32x4ExtractLane _ => pure ()
       | .I32x4ReplaceLane _ => pure ()
       | .I64x2ExtractLane _ => pure ()
       | .I64x2ReplaceLane _ => pure ()
       | .F32x4ExtractLane _ => pure ()
       | .F32x4ReplaceLane _ => pure ()
       | .F64x2ExtractLane _ => pure ()
       | .F64x2ReplaceLane _ => pure ()
       | .I8x16Swizzle => pure ()
       | .I8x16Splat => pure ()
       | .I16x8Splat => pure ()
       | .I32x4Splat => pure ()
       | .I64x2Splat => pure ()
       | .F32x4Splat => pure ()
       | .F64x2Splat => pure ()
       | .I8x16Eq => pure ()
       | .I8x16Ne => pure ()
       | .I8x16LtSigned => pure ()
       | .I8x16LtUnsigned => pure ()
       | .I8x16GtSigned => pure ()
       | .I8x16GtUnsigned => pure ()
       | .I8x16LeSigned => pure ()
       | .I8x16LeUnsigned => pure ()
       | .I8x16GeSigned => pure ()
       | .I8x16GeUnsigned => pure ()
       | .I16x8Eq => pure ()
       | .I16x8Ne => pure ()
       | .I16x8LtSigned => pure ()
       | .I16x8LtUnsigned => pure ()
       | .I16x8GtSigned => pure ()
       | .I16x8GtUnsigned => pure ()
       | .I16x8LeSigned => pure ()
       | .I16x8LeUnsigned => pure ()
       | .I16x8GeSigned => pure ()
       | .I16x8GeUnsigned => pure ()
       | .I32x4Eq => pure ()
       | .I32x4Ne => pure ()
       | .I32x4LtSigned => pure ()
       | .I32x4LtUnsigned => pure ()
       | .I32x4GtSigned => pure ()
       | .I32x4GtUnsigned => pure ()
       | .I32x4LeSigned => pure ()
       | .I32x4LeUnsigned => pure ()
       | .I32x4GeSigned => pure ()
       | .I32x4GeUnsigned => pure ()
       | .I64x2Eq => pure ()
       | .I64x2Ne => pure ()
       | .I64x2LtSigned => pure ()
       | .I64x2GtSigned => pure ()
       | .I64x2LeSigned => pure ()
       | .I64x2GeSigned => pure ()
       | .F32X4Eq => pure ()
       | .F32x4Ne => pure ()
       | .F32x4Lt => pure ()
       | .F32x4Gt => pure ()
       | .F32x4Le => pure ()
       | .F32x4Ge => pure ()
       | .F64x2Eq => pure ()
       | .F64x2Ne => pure ()
       | .F64x2Lt => pure ()
       | .F64x2Gt => pure ()
       | .F64x2Le => pure ()
       | .F64x2Ge => pure ()
       | .V128Not => pure ()
       | .V128And => pure ()
       | .V128AndNot => pure ()
       | .V128Or => pure ()
       | .V128Xor => pure ()
       | .V128BitSelect => pure ()
       | .V128AnyTrue => pure ()
       | .I8x16Abs => pure ()
       | .I8x16Neg => pure ()
       | .I8x16PopCount => pure ()
       | .I8x16AllTrue => pure ()
       | .I8x16BitMask => pure ()
       | .I8x16NarrowI16x8Signed => pure ()
       | .I8x16NarrowI16x8Unsigned => pure ()
       | .I8x16Shl => pure ()
       | .I8x16ShrSigned => pure ()
       | .I8x16ShrUnsigned => pure ()
       | .I8x16Add => pure ()
       | .I8x16AddSaturatedSigned => pure ()
       | .I8x16AddSaturatedUnsigned => pure ()
       | .I8x16Sub => pure ()
       | .I8x16SubSaturatedSigned => pure ()
       | .I8x16SubSaturatedUnsigned => pure ()
       | .I8x16MinSigned => pure ()
       | .I8x16MinUnsigned => pure ()
       | .I8x16MaxSigned => pure ()
       | .I8x16MaxUnsigned => pure ()
       | .I8x16AvgRangeUnsigned => pure ()
       | .I16x8ExtAddPairWiseI8x16Signed => pure ()
       | .I16x8ExtAddPairWiseI8x16Unsigned => pure ()
       | .I16x8Abs => pure ()
       | .I16x8Neg => pure ()
       | .I16xQ15MulRangeSaturatedSigned => pure ()
       | .I16x8AllTrue => pure ()
       | .I16x8BitMask => pure ()
       | .I16x8NarrowI32x4Signed => pure ()
       | .I16x8NarrowI32x4Unsigned => pure ()
       | .I16x8ExtendLowI8x16Unsigned => pure ()
       | .I16x8ExtendHighI8x16Unsigned => pure ()
       | .I16x8ExtendLowI8x16Signed => pure ()
       | .I16x8ExtendHighI8x16Signed => pure ()
       | .I16x8Shl => pure ()
       | .I16x8ShrSigned => pure ()
       | .I16x8ShrUnsigned => pure ()
       | .I16x8Add => pure ()
       | .I16x8AddSaturatedSigned => pure ()
       | .I16x8AddSaturatedUnsigned => pure ()
       | .I16x8Sub => pure ()
       | .I16x8SubSaturatedSigned => pure ()
       | .I16x8SubSaturatedUnsigned => pure ()
       | .I16x8Mul => pure ()
       | .I16x8MinSigned => pure ()
       | .I16x8MinUnsigned => pure ()
       | .I16x8MaxSigned => pure ()
       | .I16x8MaxUnsigned => pure ()
       | .I16x8AvgRangeUnsigned => pure ()
       | .I16x8ExtMulLowI8x16Signed => pure ()
       | .I16x8ExtMulHighI8x16Signed => pure ()
       | .I16x8ExtMulLowI8x16Unsigned => pure ()
       | .I16x8ExtMulHighI8x16Unsigned => pure ()
       | .I32x4ExtAddPairWiseI16x8Signed => pure ()
       | .I32x4ExtAddPairWiseI16x8Unsigned => pure ()
       | .I32x4Abs => pure ()
       | .I32x4Neg => pure ()
       | .I32x4AllTrue => pure ()
       | .I32x4BitMask => pure ()
       | .I32x4ExtendLowI16x8Signed => pure ()
       | .I32x4ExtendHighI16x8Signed => pure ()
       | .I32x4ExtendLowI16x8Unsigned => pure ()
       | .I32x4ExtendHighI16x8Unsigned => pure ()
       | .I32x4Shl => pure ()
       | .I32x4ShrSigned => pure ()
       | .I32x4ShrUnsigned => pure ()
       | .I32x4Add => pure ()
       | .I32x4Sub => pure ()
       | .I32x4Mul => pure ()
       | .I32x4MinSigned => pure ()
       | .I32x4MinUnsigned => pure ()
       | .I32x4MaxSigned => pure ()
       | .I32x4MaxUnsigned => pure ()
       | .I32x4DotI16x8Signed => pure ()
       | .I32x4ExtMulLowI16x8Signed => pure ()
       | .I32x4ExtMulHighI16x8Signed => pure ()
       | .I32x4ExtMulLowI16x8Unsigned => pure ()
       | .I32x4ExtMulHighI16x8Unsigned => pure ()
       | .I64x2Abs => pure ()
       | .I64x2Neg => pure ()
       | .I64x2AllTrue => pure ()
       | .I64x2BitMask => pure ()
       | .I64x2ExtendLowI32x4Signed => pure ()
       | .I64x2ExtendHighI32x4Signed => pure ()
       | .I64x2ExtendLowI32x4Unsigned => pure ()
       | .I64x2ExtendHighI32x4Unsigned => pure ()
       | .I64x2Shl => pure ()
       | .I64x2ShrSigned => pure ()
       | .I64x2ShrUnsigned => pure ()
       | .I64x2Add => pure ()
       | .I64x2Sub => pure ()
       | .I64x2Mul => pure ()
       | .I64x2ExtMulLowI32x4Signed => pure ()
       | .I64x2ExtMulHighI32x4Signed => pure ()
       | .I64x2ExtMulLowI32x4Unsigned => pure ()
       | .I64x2ExtMulHighI32x4Unsigned => pure ()
       | .F32x4Ceil => pure ()
       | .F32x4Floor => pure ()
       | .F32x4Trunc => pure ()
       | .F32x4Nearest => pure ()
       | .F32x4Abs => pure ()
       | .F32x4Neg => pure ()
       | .F32x4Sqrt => pure ()
       | .F32x4Add => pure ()
       | .F32x4Sub => pure ()
       | .F32x4Mul => pure ()
       | .F32x4Div => pure ()
       | .F32x4Min => pure ()
       | .F32x4Max => pure ()
       | .F32x4PMin => pure ()
       | .F32x4PMax => pure ()
       | .F64x2Ceil => pure ()
       | .F64x2Floor => pure ()
       | .F64x2Trunc => pure ()
       | .F64x2Nearest => pure ()
       | .F64x2Abs => pure ()
       | .F64x2Neg => pure ()
       | .F64x2Sqrt => pure ()
       | .F64x2Add => pure ()
       | .F64x2Sub => pure ()
       | .F64x2Mul => pure ()
       | .F64x2Div => pure ()
       | .F64x2Min => pure ()
       | .F64x2Max => pure ()
       | .F64x2PMin => pure ()
       | .F64x2PMax => pure ()
       | .I32x4TruncSaturatedF32x4Signed => pure ()
       | .I32x4TruncSaturatedF32x4Unsigned => pure ()
       | .F32x4ConvertI32x4Signed => pure ()
       | .F32x4ConvertI32x4Unsigned => pure ()
       | .I32x4TruncSaturatedF64x2SignedZero => pure ()
       | .I32x4TruncSaturatedF64x2UnsignedZero => pure ()
       | .F64x2ConvertLowI32x4Signed => pure ()
       | .F64x2ConvertLowI32x4Unsigned => pure ()
       | .F32x4DemoteF64x2Zero => pure ()
       | .F64xPromoteLowF32x4 => pure ()
       : IM Unit)
      invoke_expression FS rest _frame

/-- The argument/parameter compatibility test inlined in `Interpreter::invoke`
(`match (value, value_type) { ... _ => bail! }`): a null reference matches no
declared type; `FunctionAddr` only matches `funcref`, `RefExtern` only
`externref`. -/
def value_corresponds (value : Value) (value_type : ValueType) : Bool :=
  match value, value_type with
  | .I32 _, .I32 => true
  | .I64 _, .I64 => true
  | .F32 _, .F32 => true
  | .F64 _, .F64 => true
  | .V128 _, .V128 => true
  | .Ref (.FunctionAddr _), .Ref .FuncRef => true
  | .Ref (.RefExtern _), .Ref .ExternRef => true
  | _, _ => false

/-- The `for (value_type, value) in zip` validation loop of
`Interpreter::invoke`. -/
def check_args : List (ValueType × Value) → IM Unit
  | [] => pure ()
  | (value_type, value) :: rest =>
      if value_corresponds value value_type then check_args rest
      else throw (.fail "Value does not correspond with value type.")

/-- The `for arg in args` push loop of `Interpreter::invoke`. -/
def push_args : List Value → IM Unit
  | [] => pure ()
  | arg :: rest => do
      let st ← get
      set (st.push (Entry.Value arg))
      push_args rest

/-- `Interpreter::invoke`: look up the function, check argument count and
types, push a default activation frame, then push the arguments.  The body is
never executed, nothing is ever popped, and no results are returned; a host
function is `todo!`. -/
def invoke (store : Store) (function_addr : Nat) (args : List Value) : IM Unit := do
  match store.functions.get? function_addr with
  | none => throw (.fail "Function address does not exist in store.")
  | some function_instance =>
    match function_instance with
    | .Local function_type _ _ => do
        let f_num_args := function_type.params.types.length
        if f_num_args = args.length then pure ()
        else throw (.fail "Length of provided argument values is different from the number of expected arguments.")
        check_args (function_type.params.types.zip args)
        let st ← get
        set (st.push (Entry.Activation Frame.default))
        push_args args
    | .Host _ _ => throw (.panicked "Handle host function instance")

/-- The `locals.into_iter().map(...)` step of `invoke_function_call`:
every popped entry must be a value. -/
def entries_to_values : List Entry → IM (List Value)
  | [] => pure []
  | Entry.Value v :: rest => do
      let vs ← entries_to_values rest
      pure (v :: vs)
  | _ :: _ => throw (.fail "Expected entry off the stack to be a value.")

/-- `Interpreter::invoke_function_call`: pop the arguments off the stack,
extend them with one default per declared local entry, push an activation
frame and a label, then run the body. -/
def invoke_function_call (FS : FloatSemantics) (store : Store)
    (function_addr : Nat) : IM Unit := do
  match store.functions.get? function_addr with
  | none => throw (.panicked "index out of bounds")
  | some fi =>
    match fi with
    | .Local function_type module code => do
        let num_args := function_type.params.types.length
        let st ← get
        if st.len ≥ num_args then pure ()
        else throw (.fail "Values must be on top of the stack")
        match st.pop_n num_args with
        | .error e => throw (.fail e)
        | .ok (popped, st') => do
            set st'
            let locals_entries := popped ++
              code.locals.map (fun l => Entry.Value (Value.default l.value_type))
            let locals ← entries_to_values locals_entries
            let num_ret_args := function_type.results.types.length
            let f : Frame := { arity := num_ret_args, locals := locals, module := module }
            let st2 ← get
            set (st2.push (Entry.Activation f))
            let l : Label := { arity := num_ret_args, continuation := code.body }
            let st3 ← get
            set (st3.push (Entry.Label l))
            invoke_expression FS code.body f
    | .Host _ _ => throw (.panicked "What does invoking a Host Function look like")


theorem zip_get?_eq {α β : Type} : ∀ (l1 : List α) (l2 : List β) (i : Nat) (a : α) (b : β),
    l1.get? i = some a → l2.get? i = some b → (l1.zip l2).get? i = some (a, b) := by
  intro l1
  induction l1 with
  | nil => intro l2 i a b h; simp at h
  | cons x l1 ih =>
      intro l2 i a b h1 h2
      cases l2 with
      | nil => simp at h2
      | cons y l2 =>
          cases i with
          | zero =>
              simp only [List.get?_cons_zero, Option.some.injEq] at h1 h2
              subst h1; subst h2
              rw [List.zip_cons_cons, List.get?_cons_zero]
          | succ i =>
              rw [List.get?_cons_succ] at h1 h2
              rw [List.zip_cons_cons, List.get?_cons_succ]
              exact ih l2 i a b h1 h2

theorem check_args_fails :
    ∀ (ps : List (ValueType × Value)) (st : Stack) (i : Nat) (vt : ValueType) (v : Value),
    ps.get? i = some (vt, v) → value_corresponds v vt = false →
    interp_run (check_args ps) st =
      (.error (.fail "Value does not correspond with value type."), st) := by
  intro ps
  induction ps with
  | nil => intro st i vt v h _; simp at h
  | cons p rest ih =>
      intro st i vt v h hc
      obtain ⟨pvt, pv⟩ := p
      unfold check_args
      by_cases hp : value_corresponds pv pvt
      · rw [if_pos hp]
        cases i with
        | zero =>
            simp only [List.get?_cons_zero, Option.some.injEq, Prod.mk.injEq] at h
            obtain ⟨h1, h2⟩ := h
            subst h1; subst h2
            rw [hp] at hc
            cases hc
        | succ i =>
            rw [List.get?_cons_succ] at h
            exact ih st i vt v h hc
      · rw [if_neg hp]
        rfl

theorem interp_run_bind {α β : Type} (m : IM α) (f : α → IM β) (st : Stack) :
    interp_run (m >>= f) st =
      (match interp_run m st with
       | (.ok a, s1) => interp_run (f a) s1
       | (.error e, s1) => (.error e, s1)) := by
  unfold interp_run
  cases hr : (ExceptT.run m).run st with
  | mk res s1 =>
      cases res with
      | ok a =>
          simp only [Bind.bind, ExceptT.bind, ExceptT.mk, ExceptT.bindCont, ExceptT.run,
            StateT.bind, StateT.run] at *
          rw [hr]
      | error e =>
          simp only [Bind.bind, ExceptT.bind, ExceptT.mk, ExceptT.bindCont, ExceptT.run,
            StateT.bind, StateT.run] at *
          rw [hr]
          rfl

/-- Claim C10: `invoke`'s argument type check rejects a null reference for
every declared reference parameter type (`Ref::Null` matches neither
`funcref` nor `externref`); a `FunctionAddr` reference is accepted only for
`funcref` and a `RefExtern` only for `externref`; consequently `invoke`
returns an error whenever an argument is a null reference and its declared
parameter type is a reference type. -/
theorem claim_C10_null_ref_args_rejected :
    ∀ rt : RefType,
      value_corresponds (Value.Ref Ref.Null) (ValueType.Ref rt) = false ∧
      (∀ a : Nat, value_corresponds (Value.Ref (Ref.FunctionAddr a)) (ValueType.Ref rt) =
        decide (rt = RefType.FuncRef)) ∧
      (∀ a : Nat, value_corresponds (Value.Ref (Ref.RefExtern a)) (ValueType.Ref rt) =
        decide (rt = RefType.ExternRef)) ∧
      (∀ (store : Store) (function_addr : Nat) (ft : FunctionType) (mi : ModuleInstance)
          (code : Function) (args : List Value) (st : Stack) (i : Nat),
        store.functions.get? function_addr = some (.Local ft mi code) →
        args.length = ft.params.types.length →
        ft.params.types.get? i = some (ValueType.Ref rt) →
        args.get? i = some (Value.Ref Ref.Null) →
        interp_run (invoke store function_addr args) st =
          (.error (.fail "Value does not correspond with value type."), st)) := by
  intro rt
  refine ⟨by cases rt <;> rfl, by intro a; cases rt <;> rfl, by intro a; cases rt <;> rfl, ?_⟩
  intro store function_addr ft mi code args st i hget hlen hvt harg
  have hzip := zip_get?_eq ft.params.types args i _ _ hvt harg
  have hcorr : value_corresponds (Value.Ref Ref.Null) (ValueType.Ref rt) = false := by
    cases rt <;> rfl
  have hfail := check_args_fails (ft.params.types.zip args) st i _ _ hzip hcorr
  unfold invoke
  rw [hget]
  simp only []
  rw [if_pos hlen.symm]
  rw [pure_bind, interp_run_bind, hfail]

def c10_ft : FunctionType := { params := { types := [.Ref .FuncRef] }, results := { types := [] } }

/-- A store with a single local function taking one `funcref` parameter. -/
def c10_store : Store :=
  { Store.new with functions :=
      [.Local c10_ft (ModuleInstance.new [c10_ft]) { type_index := 0, locals := [], body := [] }] }

/-- Witness for C10: passing `Ref::Null` for the `funcref` parameter makes
`invoke` fail. -/
theorem claim_C10_null_ref_args_rejected_witness :
    value_corresponds (Value.Ref Ref.Null) (ValueType.Ref RefType.FuncRef) = false ∧
    interp_run (invoke c10_store 0 [Value.Ref Ref.Null]) [] =
      (.error (.fail "Value does not correspond with value type."), []) :=
  ⟨(claim_C10_null_ref_args_rejected RefType.FuncRef).1,
   (claim_C10_null_ref_args_rejected RefType.FuncRef).2.2.2 c10_store 0 c10_ft
     (ModuleInstance.new [c10_ft]) { type_index := 0, locals := [], body := [] }
     [Value.Ref Ref.Null] [] 0 (by rfl) (by rfl) (by rfl) (by rfl)⟩


/-- Claim C6 (failing-input evaluation): the `div_s`/`div_u`/`rem_s`/`rem_u`
arms of `invoke_expression` (both `i32` and `i64`) are empty — executing any
of them is a no-op for every stack, in particular with a zero divisor on top,
returning `Ok` with the stack unchanged instead of the claimed
`Trap(DivByZero)`. -/
theorem claim_C6_div_rem_no_ops :
    ∀ (FS : FloatSemantics) (fr : Frame) (st : Stack),
      interp_run (invoke_expression FS [.I32DivSigned] fr) st = (.ok (), st) ∧
      interp_run (invoke_expression FS [.I32DivUnsigned] fr) st = (.ok (), st) ∧
      interp_run (invoke_expression FS [.I32RemainderSigned] fr) st = (.ok (), st) ∧
      interp_run (invoke_expression FS [.I32RemainderUnsigned] fr) st = (.ok (), st) ∧
      interp_run (invoke_expression FS [.I64DivSigned] fr) st = (.ok (), st) ∧
      interp_run (invoke_expression FS [.I64DivUnsigned] fr) st = (.ok (), st) ∧
      interp_run (invoke_expression FS [.I64RemainderSigned] fr) st = (.ok (), st) ∧
      interp_run (invoke_expression FS [.I64RemainderUnsigned] fr) st = (.ok (), st) :=
  fun _ _ _ => ⟨rfl, rfl, rfl, rfl, rfl, rfl, rfl, rfl⟩

/-- The `(i32) → (i32)` function type used by the C7 evaluation. -/
def c7_ft : FunctionType := { params := { types := [.I32] }, results := { types := [.I32] } }

/-- A store holding one local `(i32) → (i32)` function with an empty body. -/
def c7_store : Store :=
  { Store.new with functions :=
      [.Local c7_ft (ModuleInstance.new [c7_ft]) { type_index := 0, locals := [], body := [] }] }

/-- Claim C7 (failing-input evaluation): invoking a `(i32) → (i32)` function
with one argument from an empty stack succeeds but leaves two entries — the
default activation frame and the pushed argument — on the stack, not
`0 − |params| + |results| = 0` as the claimed stack discipline requires.
`invoke` never runs the body, never pops the activation, and returns no
result values. -/
theorem claim_C7_invoke_stack_depth :
    interp_run (invoke c7_store 0 [Value.I32 7]) [] =
      (.ok (), [Entry.Value (Value.I32 7), Entry.Activation Frame.default]) ∧
    Stack.len [Entry.Value (Value.I32 7), Entry.Activation Frame.default] = 2 :=
  ⟨rfl, rfl⟩

end Whale
